import Mathlib

/-!
Shallow embedding of the inventory-to-catalog reconciliation pipeline of
`server.js` (classification, grouping, content generation, Shopify sync
planning), together with proofs about the specified properties.

Modelling conventions:
* JavaScript strings are modelled as lists of characters (`Str`); string
  literals are injected with `str`.
* JavaScript numbers are modelled as `Nat` / `Int` / `Rat` as appropriate;
  `Math.round` is `jsRound` (round half towards positive infinity, the JS
  behaviour for finite numbers).
* A JavaScript field that may be `undefined` is an `Option`; the `x || y`
  idiom on strings is `jsOrS` / `jsOrStr` (empty string and `undefined` are
  falsy), and on numbers `0` is falsy.
* `Math.random()`-driven choices take the stream of comparator outcomes as
  an explicit oracle argument (`List Bool`), and `new Date()` timestamps take
  the current time as an explicit `Str` argument, so that every function is
  a mathematical function of its inputs.
-/

/-- JavaScript strings, modelled as lists of characters. -/
abbrev Str := List Char

/-- Injection of a Lean string literal into the model. -/
def str (s : String) : Str := s.data

/-- Character class `\d` = `[0-9]`. -/
def isDigit09 (c : Char) : Bool := '0' ≤ c && c ≤ '9'

/-- Character class `\w` = `[A-Za-z0-9_]`. -/
def isWordChar (c : Char) : Bool :=
  ('a' ≤ c && c ≤ 'z') || ('A' ≤ c && c ≤ 'Z') || isDigit09 c || c = '_'

/-- Character class `\s` (the whitespace characters that occur in the data). -/
def jsIsWs (c : Char) : Bool := c = ' ' || c = '\t' || c = '\n' || c = '\r'

/-- JavaScript `String.prototype.toLowerCase` (ASCII fragment). -/
def jsToLower (s : Str) : Str := s.map Char.toLower

/-- JavaScript `String.prototype.toUpperCase` (ASCII fragment). -/
def jsToUpper (s : Str) : Str := s.map Char.toUpper

/-- JavaScript `String.prototype.trim`. -/
def jsTrim (s : Str) : Str :=
  ((s.dropWhile jsIsWs).reverse.dropWhile jsIsWs).reverse

/-- JavaScript `s.includes(pat)`: substring containment. -/
def jsIncludes : Str → Str → Bool
  | [], pat => pat.isEmpty
  | s@(_ :: t), pat => pat.isPrefixOf s || jsIncludes t pat

/-- JavaScript `s.replace(pat, rep)` with a plain-string pattern: replaces
the first occurrence only. -/
def jsReplaceFirst (s pat rep : Str) : Str :=
  if pat.isEmpty then rep ++ s else go s
where
  go : Str → Str
    | [] => []
    | c :: t =>
      if pat.isPrefixOf (c :: t) then rep ++ (c :: t).drop pat.length
      else c :: go t

theorem length_dropWhile_le (p : Char → Bool) (l : Str) :
    (l.dropWhile p).length ≤ l.length := by
  induction l with
  | nil => simp
  | cons a t ih =>
    by_cases h : p a
    · simpa [List.dropWhile, h] using Nat.le_succ_of_le ih
    · simp [List.dropWhile, h]

/-- Worker for `collapseRuns`: `inRun` records whether the previous
character belonged to the current run (structural recursion, so the kernel
can evaluate it). -/
def collapseRunsAux (p : Char → Bool) (r : Char) : Bool → Str → Str
  | _, [] => []
  | inRun, c :: t =>
    if p c then
      if inRun then collapseRunsAux p r true t
      else r :: collapseRunsAux p r true t
    else c :: collapseRunsAux p r false t

/-- Global regex replacement of every maximal run of characters matching `p`
by the single character `r`; models the `replace` calls whose regex is a
character class followed by `+` with the `g` flag (whitespace runs to a
hyphen, hyphen runs to a single hyphen). -/
def collapseRuns (p : Char → Bool) (r : Char) (s : Str) : Str :=
  collapseRunsAux p r false s

/-- JavaScript `parseInt(s)` in base 10 (`none` models `NaN`). -/
def jsParseInt (s : Str) : Option Int :=
  let t := s.dropWhile jsIsWs
  let sign : Int := match t with
    | '-' :: _ => -1
    | _ => 1
  let t2 : Str := match t with
    | '-' :: r => r
    | '+' :: r => r
    | _ => t
  let ds := t2.takeWhile isDigit09
  if ds.isEmpty then none
  else some (sign * (ds.foldl (fun a c => a * 10 + (c.toNat - '0'.toNat)) 0 : Nat))

/-- JavaScript `parseFloat(s)` (`none` models `NaN`); only the plain
`[sign] digits [. digits]` forms that occur in the data are recognised. The
value is returned as an unreduced fraction (numerator, positive power-of-ten
denominator), which keeps every consumer computable by the kernel; the
callers only compare the value against integer thresholds. -/
def jsParseFloat (s : Str) : Option (ℤ × ℕ) :=
  let t := s.dropWhile jsIsWs
  let sign : ℤ := match t with
    | '-' :: _ => -1
    | _ => 1
  let t2 : Str := match t with
    | '-' :: r => r
    | '+' :: r => r
    | _ => t
  let ip := t2.takeWhile isDigit09
  let rest := t2.drop ip.length
  let fp : Str := match rest with
    | '.' :: r => r.takeWhile isDigit09
    | _ => []
  if ip.isEmpty && fp.isEmpty then none
  else
    let ipv : Nat := ip.foldl (fun a c => a * 10 + (c.toNat - '0'.toNat)) 0
    let fpv : Nat := fp.foldl (fun a c => a * 10 + (c.toNat - '0'.toNat)) 0
    some (sign * (ipv * 10 ^ fp.length + fpv), 10 ^ fp.length)

/-- Comparison `value >= c` for a `jsParseFloat` result (the denominator is
positive). -/
def fracGe (v : ℤ × ℕ) (c : ℤ) : Bool := decide (c * (v.2 : ℤ) ≤ v.1)

/-- Comparison `value > c` for a `jsParseFloat` result. -/
def fracGt (v : ℤ × ℕ) (c : ℤ) : Bool := decide (c * (v.2 : ℤ) < v.1)

/-- JavaScript `Math.round` of the exact fraction `a / b` (`b` positive):
round half towards `+∞`, computed as the floor of `(2a + b) / 2b` with
euclidean division so that the kernel can evaluate it. The float products
being rounded in the source stay far enough from half-way boundaries that
the double-precision result agrees with the exact one. -/
def jsRoundFrac (a : ℤ) (b : ℕ) : ℤ := (2 * a + b) / (2 * (b : ℤ))

/-- A rational literal in lowest terms; used so that rational constants are
stored in normal form and compare by `decide`. -/
def ratOf (n : ℤ) (d : ℕ) (h1 : d ≠ 0) (h2 : n.natAbs.Coprime d) : ℚ := ⟨n, d, h1, h2⟩

/-- Decimal rendering of a natural number (JS number-to-string on integers). -/
def natToStr (n : Nat) : Str := Nat.toDigits 10 n

/-- Decimal rendering of an integer (JS number-to-string on integers). -/
def intToStr : ℤ → Str
  | .ofNat n => natToStr n
  | .negSucc m => '-' :: natToStr (m + 1)

/-- Helper for `toLocaleString`: comma-group a reversed digit list in
threes. -/
def groupRev : Str → Str
  | a :: b :: c :: d :: rest => a :: b :: c :: ',' :: groupRev (d :: rest)
  | l => l

/-- JavaScript `Number.prototype.toLocaleString()` on integers, under the
en-US default locale (thousands separated by commas). -/
def localeStr : ℤ → Str
  | .ofNat n => (groupRev (natToStr n).reverse).reverse
  | .negSucc m => '-' :: (groupRev (natToStr (m + 1)).reverse).reverse

/-- The string-valued `a || b` idiom on a possibly-undefined field:
`undefined` and the empty string are falsy. -/
def jsOrS (a : Option Str) (b : Str) : Str :=
  match a with
  | some s => if s.isEmpty then b else s
  | none => b

/-- The string-valued `a || b` idiom on two present strings. -/
def jsOrStr (a b : Str) : Str := if a.isEmpty then b else a

/-- The number-valued `a || b` idiom on a possibly-absent number:
`undefined` and `0` are falsy. -/
def jsOrZ (a : Option ℤ) (b : ℤ) : ℤ :=
  match a with
  | some v => if v = 0 then b else v
  | none => b

/-- Lookup in a JS object literal used as a string-keyed map (prototype-chain
quirks for keys like `toString` are outside the model). -/
def jsLookup (m : List (Str × Str)) (k : Str) : Option Str :=
  (m.find? (fun p => p.1 == k)).map Prod.snd

/-- Generic association-list lookup for object-shaped state (first, and in
our uses only, binding wins, matching JS property access). -/
def lookupA {α : Type} (m : List (Str × α)) (k : Str) : Option α :=
  (m.find? (fun p => p.1 == k)).map Prod.snd

/-- Whether an object-shaped map already has a key. -/
def hasKeyA {α : Type} (m : List (Str × α)) (k : Str) : Bool :=
  m.any (fun p => p.1 == k)

/-- Update the (unique) binding of key `k` in object-shaped state. -/
def updFirst {α : Type} (k : Str) (f : α → α) : List (Str × α) → List (Str × α)
  | [] => []
  | p :: t => if p.1 == k then (p.1, f p.2) :: t else p :: updFirst k f t

/-- JavaScript `[...new Set(xs)]`: de-duplicate keeping first occurrences. -/
def dedupFirst (l : List Str) : List Str := go [] l
where
  go (seen : List Str) : List Str → List Str
    | [] => []
    | x :: t => if seen.contains x then go seen t else x :: go (x :: seen) t

/-- First position `j ≥ i` (reported with its suffix) at which the predicate
on the remaining suffix holds; drives the leftmost-match regex searches. -/
def findFrom (p : Str → Bool) : Str → Nat → Option (Nat × Str)
  | [], _ => none
  | s@(_ :: t), i => if p s then some (i, s) else findFrom p t (i + 1)

/-- JavaScript `components.join(sep)`. -/
def joinSep (sep : Str) : List Str → Str
  | [] => []
  | [x] => x
  | x :: y :: t => x ++ sep ++ joinSep sep (y :: t)

/-- JavaScript `[..].filter(Boolean)` on strings: drop empty strings (the
model for both `''` and `undefined` components). -/
def filterTruthy (l : List Str) : List Str := l.filter (fun s => !s.isEmpty)

/-! ## Data model -/

/-- One spreadsheet row (`item`): a string-keyed mapping. Only the keys the
pipeline reads are modelled; `none` is an absent key (`undefined`). Field
names encode the JS key: `stockU` is `item['Stock']`, `stockL` is
`item['stock']`, and so on. -/
structure Row where
  stockU : Option Str        -- item['Stock']
  stockL : Option Str        -- item['stock']
  serialNumberU : Option Str -- item['Serial Number']
  serialL : Option Str       -- item['serial']
  serialU : Option Str       -- item['Serial']
  model : Option Str         -- item['Model']
  subCategory : Option Str   -- item['Sub-Category']
  category : Option Str      -- item['Category']
  processor : Option Str     -- item['Processor']
  brand : Option Str         -- item['Brand']
  storage : Option Str       -- item['Storage']
  memory : Option Str        -- item['Memory']
  colorU : Option Str        -- item['Color']
  colorL : Option Str        -- item['color']
  conditionU : Option Str    -- item['Condition']
  conditionL : Option Str    -- item['condition']
  commentsU : Option Str     -- item['Comments']
  commentsL : Option Str     -- item['comments']
deriving DecidableEq, Repr

/-- Classification result of `analyzeProductAdvanced`. -/
structure ProductInfo where
  productType : Str
  displaySize : Str
  processor : Str
  storage : Str
  memory : Str
  year : Str
  modelNumber : Str
  category : Str
  deviceFamily : Str
deriving DecidableEq, Repr

/-- One serialized unit as recorded by `createProductGroups`. The
`dateAdded` field is `new Date().toISOString()`, supplied as the run
timestamp parameter. -/
structure StockItem where
  stockId : Str
  serialNumber : Str
  comments : Str
  condition : Str
  color : Str
  keyboardLayout : Str
  dateAdded : Str
  originalData : Row
deriving DecidableEq, Repr

/-- One variant bucket inside a product group. -/
structure VariantBucket where
  color : Str
  condition : Str
  keyboardLayout : Str
  conditionDescription : Str
  quantity : Nat
  stockItems : List StockItem
  sku : Str
  price : ℤ
  compareAtPrice : ℤ
deriving DecidableEq, Repr

/-- One product group. `variants` is the JS object keyed by variant key,
modelled as an insertion-ordered association list; `totalUnits` is an
`Option` because groups received over HTTP may omit the field (the `|| 0`
guard in `createAdvancedVariants`). `lastUpdated` is the run timestamp. -/
structure ProductGroup where
  productType : Str
  displaySize : Str
  processor : Str
  storage : Str
  memory : Str
  year : Str
  modelNumber : Str
  seoTitle : Str
  seoDescription : Str
  seoHandle : Str
  productDescription : Str
  basePrice : ℤ
  retailPrice : ℤ
  collections : List Str
  tags : List Str
  totalUnits : Option Nat
  variants : List (Str × VariantBucket)
  stockItems : List StockItem
  shopifyProductId : Option Str
  lastUpdated : Str
deriving DecidableEq, Repr

/-! ## Row classifier (`analyzeProductAdvanced` and helpers) -/

/-- Model of `processor.match(Intel-regex)` in `extractProcessorDetails`:
the regex is `Intel`, a lazy gap, one of `Core`/`Xeon`/`Celeron` (again with
a lazy extension), optional whitespace and a word; the function returns
group 1, a space, and group 2. `none` models a failed match. -/
def intelMatchGroups (s : Str) : Option Str :=
  let lower := jsToLower s
  match findFrom (fun t => (str "intel").isPrefixOf t) lower 0 with
  | none => none
  | some (i, _) => searchKw (lower.drop (i + 5)) (i + 5)
where
  /-- Earliest occurrence of one of the keywords at or after the index,
  trying `core`, `xeon`, `celeron` in the regex's alternation order. -/
  searchKw : Str → Nat → Option Str
    | [], _ => none
    | t@(_ :: rest), j =>
      let kwLen : Option Nat :=
        if (str "core").isPrefixOf t then some 4
        else if (str "xeon").isPrefixOf t then some 4
        else if (str "celeron").isPrefixOf t then some 7
        else none
      match kwLen with
      | some len =>
        match tryAfter j len with
        | some r => some r
        | none => searchKw rest (j + 1)
      | none => searchKw rest (j + 1)
  /-- With the keyword starting at `j` (length `len`) in the subject `subj`,
  find the first word character after it; the lazy group-1 extension eats
  everything up to the whitespace run immediately preceding it. -/
  tryAfter (j len : Nat) : Option Str :=
    let after := s.drop (j + len)
    match findFrom (fun t => match t with
        | c :: _ => isWordChar c
        | [] => false) after 0 with
    | none => none
    | some (q, _) =>
      let beforeQ := after.take q
      let wsRun := (beforeQ.reverse.takeWhile jsIsWs).length
      let ext := q - wsRun
      let group1 := s.drop j |>.take (len + ext)
      let group2 := (after.drop q).takeWhile isWordChar
      some (group1 ++ ' ' :: group2)

/-- `extractProcessorDetails`. -/
def extractProcessorDetails (processor : Str) : Str :=
  if processor.isEmpty then str "Unknown"
  else if jsIncludes processor (str "M3 Max") then str "M3 Max"
  else if jsIncludes processor (str "M3 Pro") then str "M3 Pro"
  else if jsIncludes processor (str "M3") then str "M3"
  else if jsIncludes processor (str "M2 Ultra") then str "M2 Ultra"
  else if jsIncludes processor (str "M2 Max") then str "M2 Max"
  else if jsIncludes processor (str "M2 Pro") then str "M2 Pro"
  else if jsIncludes processor (str "M2") then str "M2"
  else if jsIncludes processor (str "M1 Ultra") then str "M1 Ultra"
  else if jsIncludes processor (str "M1 Max") then str "M1 Max"
  else if jsIncludes processor (str "M1 Pro") then str "M1 Pro"
  else if jsIncludes processor (str "M1") then str "M1"
  else if jsIncludes processor (str "Intel") then
    match intelMatchGroups processor with
    | some g => g
    | none => str "Intel"
  else jsTrim processor

/-- `standardizeStorage`. The sanitising replace keeps the characters of the
class `[0-9TBGB]`, i.e. digits and `T`, `B`, `G`; the regex
`(digits)(TB|GB|T|G)?` then takes the first digit run and an optional unit,
and a missing unit is inferred from the amount with a division by 1000 for
terabytes (rendered as JS renders `amount`, with up to three decimals). -/
def standardizeStorage (storage : Str) : Str :=
  if storage.isEmpty then []
  else
    let storageUpper := (jsToUpper storage).filter
      (fun c => isDigit09 c || c = 'T' || c = 'B' || c = 'G')
    match findFrom (fun t => match t with
        | c :: _ => isDigit09 c
        | [] => false) storageUpper 0 with
    | none => storage
    | some (_, suffix) =>
      let ds := suffix.takeWhile isDigit09
      let rest := suffix.drop ds.length
      let unit0 : Str :=
        if (str "TB").isPrefixOf rest then str "TB"
        else if (str "GB").isPrefixOf rest then str "GB"
        else if (str "T").isPrefixOf rest then str "T"
        else if (str "G").isPrefixOf rest then str "G"
        else []
      let amount : Nat := ds.foldl (fun a c => a * 10 + (c.toNat - '0'.toNat)) 0
      let unit1 : Str :=
        if unit0 = str "T" then str "TB"
        else if unit0 = str "G" then str "GB"
        else unit0
      if unit1.isEmpty then
        if amount ≥ 1000 then renderThousandths amount ++ str "TB"
        else natToStr amount ++ str "GB"
      else natToStr amount ++ unit1
where
  /-- JS rendering of `amount / 1000` for a natural amount: integer part and
  up to three decimals with trailing zeros stripped (the shortest round-trip
  decimal representation of the quotient). -/
  renderThousandths (n : Nat) : Str :=
    let ip := n / 1000
    let fr := n % 1000
    if fr = 0 then natToStr ip
    else
      let d3 := natToStr fr
      let padded := List.replicate (3 - d3.length) '0' ++ d3
      natToStr ip ++ '.' :: (padded.reverse.dropWhile (· = '0')).reverse

/-- `standardizeMemory`: sanitise to the class `[0-9GB]`, take the first
digit run verbatim and append `GB`. -/
def standardizeMemory (memory : Str) : Str :=
  if memory.isEmpty then []
  else
    let memoryUpper := (jsToUpper memory).filter
      (fun c => isDigit09 c || c = 'G' || c = 'B')
    match findFrom (fun t => match t with
        | c :: _ => isDigit09 c
        | [] => false) memoryUpper 0 with
    | none => memory
    | some (_, suffix) => suffix.takeWhile isDigit09 ++ str "GB"

/-- The `modelSizeMap` object literal of `extractDisplaySize`. The source
literal lists the key `A3114` twice (`14"` under MacBook Pro, `15"` under
MacBook Air); in a JS object literal the later entry wins, so the map binds
`A3114` to `15"`. -/
def modelSizeMap : List (Str × Str) := [
  (str "A2141", str "16\""), (str "A2485", str "16\""), (str "A2780", str "16\""),
  (str "A2991", str "16\""), (str "A3112", str "16\""), (str "A3185", str "16\""),
  (str "A3401", str "16\""),
  (str "A1707", str "15\""), (str "A1990", str "15\""),
  (str "A2442", str "14\""), (str "A2779", str "14\""), (str "A2992", str "14\""),
  (str "A3114", str "15\""),
  (str "A1706", str "13\""), (str "A1708", str "13\""), (str "A1989", str "13\""),
  (str "A2159", str "13\""), (str "A2251", str "13\""), (str "A2289", str "13\""),
  (str "A2338", str "13\""),
  (str "A2941", str "15\""), (str "A3241", str "15\""),
  (str "A1932", str "13\""), (str "A2337", str "13\""), (str "A2681", str "13\""),
  (str "A3113", str "13\""), (str "A3240", str "13\""),
  (str "A2438", str "24\""), (str "A2439", str "24\""), (str "A2873", str "24\""),
  (str "A2874", str "24\""), (str "A3115", str "24\""),
  (str "A2115", str "27\""), (str "A1419", str "27\""),
  (str "A2116", str "21.5\""), (str "A1418", str "21.5\""),
  (str "A1584", str "12.9\""), (str "A1652", str "12.9\""), (str "A1670", str "12.9\""),
  (str "A1671", str "12.9\""), (str "A1876", str "12.9\""), (str "A2014", str "12.9\""),
  (str "A1895", str "12.9\""), (str "A2229", str "12.9\""), (str "A2069", str "12.9\""),
  (str "A2232", str "12.9\""), (str "A2378", str "12.9\""), (str "A2461", str "12.9\""),
  (str "A2379", str "12.9\""), (str "A2436", str "12.9\""), (str "A2764", str "12.9\""),
  (str "A2437", str "12.9\""),
  (str "A1980", str "11\""), (str "A2013", str "11\""), (str "A1934", str "11\""),
  (str "A2228", str "11\""), (str "A2068", str "11\""), (str "A2230", str "11\""),
  (str "A2377", str "11\""), (str "A2459", str "11\""), (str "A2301", str "11\""),
  (str "A2435", str "11\""), (str "A2761", str "11\""), (str "A2302", str "11\""),
  (str "A1701", str "10.5\""), (str "A1709", str "10.5\""),
  (str "A1673", str "9.7\""), (str "A1674", str "9.7\""), (str "A1675", str "9.7\""),
  (str "A2316", str "10.9\""), (str "A2324", str "10.9\""), (str "A2325", str "10.9\""),
  (str "A2588", str "10.9\""), (str "A2589", str "10.9\""), (str "A2591", str "10.9\""),
  (str "A2197", str "10.2\""), (str "A2200", str "10.2\""), (str "A2198", str "10.2\""),
  (str "A2270", str "10.2\""), (str "A2428", str "10.2\""), (str "A2429", str "10.2\""),
  (str "A2602", str "10.2\""), (str "A2603", str "10.2\""), (str "A2604", str "10.2\""),
  (str "A2568", str "8.3\""), (str "A2569", str "8.3\""), (str "A2567", str "8.3\"")]

/-- One entry of the `sizeMatches` fallback table of `extractDisplaySize`.
Each regex there is a digit sequence (with an optional literal dot) followed
by optional characters, so a test is substring containment of the digit
sequence with or without the dot. -/
def sizePatternHits (processor : Str) (withDot : Str) (noDot : Str) : Bool :=
  jsIncludes processor withDot || (!noDot.isEmpty && jsIncludes processor noDot)

/-- `extractDisplaySize`. -/
def extractDisplaySize (model processor : Str) : Str :=
  match (if model.isEmpty then none else jsLookup modelSizeMap model) with
  | some sz => sz
  | none =>
    if sizePatternHits processor (str "27") [] then str "27\""
    else if sizePatternHits processor (str "24") [] then str "24\""
    else if sizePatternHits processor (str "21.5") (str "215") then str "21.5\""
    else if sizePatternHits processor (str "16") [] then str "16\""
    else if sizePatternHits processor (str "15") [] then str "15\""
    else if sizePatternHits processor (str "14") [] then str "14\""
    else if sizePatternHits processor (str "13") [] then str "13\""
    else if sizePatternHits processor (str "12.9") (str "129") then str "12.9\""
    else if sizePatternHits processor (str "11") [] then str "11\""
    else if sizePatternHits processor (str "10.9") (str "109") then str "10.9\""
    else if sizePatternHits processor (str "10.5") (str "105") then str "10.5\""
    else if sizePatternHits processor (str "10.2") (str "102") then str "10.2\""
    else if sizePatternHits processor (str "9.7") (str "97") then str "9.7\""
    else if sizePatternHits processor (str "8.3") (str "83") then str "8.3\""
    else
      let processorLower := jsToLower processor
      if jsIncludes processorLower (str "imac") then
        if jsIncludes processorLower (str "m1") || jsIncludes processorLower (str "m3")
            || jsIncludes processorLower (str "m4") then str "24\""
        else str "27\""
      else if jsIncludes processorLower (str "max") then str "16\""
      else if jsIncludes processorLower (str "pro") && !jsIncludes processorLower (str "air") then str "14\""
      else if jsIncludes processorLower (str "air") then str "13\""
      else if jsIncludes processorLower (str "ipad") then
        if jsIncludes processorLower (str "pro") then str "11\""
        else if jsIncludes processorLower (str "air") then str "10.9\""
        else if jsIncludes processorLower (str "mini") then str "8.3\""
        else str "10.2\""
      else str "13\""

/-- `extractYear`: first occurrence of `20` followed by two digits in
`processor ++ " " ++ model`. -/
def extractYear (processor model : Str) : Str :=
  let combined := processor ++ ' ' :: model
  match findFrom (fun t => match t with
      | '2' :: '0' :: c :: d :: _ => isDigit09 c && isDigit09 d
      | _ => false) combined 0 with
  | some (_, suffix) => suffix.take 4
  | none => []

/-- `extractModelNumber`: first occurrence of an uppercase letter followed
by four digits, extended by any further uppercase letters. -/
def extractModelNumber (processor model : Str) : Str :=
  let combined := processor ++ ' ' :: model
  let isUpper := fun c => 'A' ≤ c && c ≤ 'Z'
  match findFrom (fun t => match t with
      | a :: b :: c :: d :: e :: _ =>
        isUpper a && isDigit09 b && isDigit09 c && isDigit09 d && isDigit09 e
      | _ => false) combined 0 with
  | some (_, suffix) => suffix.take 5 ++ (suffix.drop 5).takeWhile isUpper
  | none => []

/-- `estimateYear`. -/
def estimateYear (processor : Str) : Str :=
  if jsIncludes processor (str "M3") then str "2023"
  else if jsIncludes processor (str "M2") then str "2022"
  else if jsIncludes processor (str "M1") then str "2020"
  else if jsIncludes processor (str "Intel") then str "2019"
  else str "2022"

/-- `determineDefaultSize`. -/
def determineDefaultSize (productType processor : Str) : Str :=
  if jsIncludes processor (str "16") then str "16\""
  else if jsIncludes processor (str "15") then str "15\""
  else if jsIncludes processor (str "14") then str "14\""
  else if jsIncludes processor (str "13") then str "13\""
  else
    (jsLookup [(str "MacBook Pro", str "16\""), (str "MacBook Air", str "13\""),
      (str "MacBook", str "13\""), (str "iMac", str "24\"")] productType).getD []

/-- `determineIPadTypeAdvanced`. -/
def determineIPadTypeAdvanced (model : Str) : Str :=
  let modelLower := jsToLower model
  if jsIncludes modelLower (str "ipad pro") then str "iPad Pro"
  else if jsIncludes modelLower (str "ipad air") then str "iPad Air"
  else if jsIncludes modelLower (str "ipad mini") then str "iPad Mini"
  else str "iPad"

/-- `determineIPhoneModelAdvanced`. -/
def determineIPhoneModelAdvanced (model : Str) : Str :=
  let modelLower := jsToLower model
  if jsIncludes modelLower (str "iphone 15") then str "iPhone 15"
  else if jsIncludes modelLower (str "iphone 14") then str "iPhone 14"
  else if jsIncludes modelLower (str "iphone 13") then str "iPhone 13"
  else if jsIncludes modelLower (str "iphone 12") then str "iPhone 12"
  else if jsIncludes modelLower (str "iphone 11") then str "iPhone 11"
  else if jsIncludes modelLower (str "iphone se") then str "iPhone SE"
  else str "iPhone"

/-- `extractIPadSize`: first number (with optional decimal part) in
`model ++ " " ++ processor`, rendered with a trailing double quote. -/
def extractIPadSize (model processor : Str) : Str :=
  let combined := model ++ ' ' :: processor
  match findFrom (fun t => match t with
      | c :: _ => isDigit09 c
      | [] => false) combined 0 with
  | some (_, suffix) =>
    let ds := suffix.takeWhile isDigit09
    let rest := suffix.drop ds.length
    let frac : Str := match rest with
      | '.' :: r =>
        let fs := r.takeWhile isDigit09
        if fs.isEmpty then [] else '.' :: fs
      | _ => []
    ds ++ frac ++ str "\""
  | none => str "10.9\""

/-- `getIPhoneDisplaySize`. -/
def getIPhoneDisplaySize (iphoneModel : Str) : Str :=
  (jsLookup [(str "iPhone 15", str "6.1\""), (str "iPhone 14", str "6.1\""),
    (str "iPhone 13", str "6.1\""), (str "iPhone 12", str "6.1\""),
    (str "iPhone 11", str "6.1\""), (str "iPhone SE", str "4.7\"")] iphoneModel).getD
    (str "6.1\"")

/-- `estimateIPhoneYear`. -/
def estimateIPhoneYear (iphoneModel : Str) : Str :=
  (jsLookup [(str "iPhone 15", str "2023"), (str "iPhone 14", str "2022"),
    (str "iPhone 13", str "2021"), (str "iPhone 12", str "2020"),
    (str "iPhone 11", str "2019"), (str "iPhone SE", str "2022")] iphoneModel).getD
    (str "2022")

/-- `analyzeProductAdvanced`: ordered category predicates over the combined
lower-cased text of the model/category/processor/brand fields. Returns
`none` when no category matches (the row is rejected). -/
def analyzeProductAdvanced (item : Row) : Option ProductInfo :=
  let model := jsTrim (jsOrS item.model [])
  let category := jsTrim (jsOrS item.subCategory (jsOrS item.category []))
  let processor := jsTrim (jsOrS item.processor [])
  let brand := jsTrim (jsOrS item.brand [])
  let storage := jsTrim (jsOrS item.storage [])
  let memory := jsTrim (jsOrS item.memory [])
  let combinedText := jsToLower (model ++ ' ' :: category ++ ' ' :: processor ++ ' ' :: brand)
  let categoryLower := jsToLower category
  if jsIncludes combinedText (str "macbook pro")
      || (jsIncludes combinedText (str "laptop") && jsIncludes combinedText (str "pro"))
      || (jsIncludes categoryLower (str "laptop")
            && jsIncludes (jsToLower processor) (str "pro")) then
    some { productType := str "MacBook Pro"
           displaySize := jsOrStr (extractDisplaySize model processor)
             (determineDefaultSize (str "MacBook Pro") processor)
           processor := extractProcessorDetails processor
           storage := standardizeStorage storage
           memory := standardizeMemory memory
           year := jsOrStr (extractYear processor model) (estimateYear processor)
           modelNumber := extractModelNumber processor model
           category := str "Laptops"
           deviceFamily := str "Mac" }
  else if jsIncludes combinedText (str "macbook air")
      || (jsIncludes combinedText (str "macbook") && jsIncludes combinedText (str "air"))
      || jsIncludes categoryLower (str "macbook air") then
    some { productType := str "MacBook Air"
           displaySize := jsOrStr (extractDisplaySize model processor)
             (determineDefaultSize (str "MacBook Air") processor)
           processor := extractProcessorDetails processor
           storage := standardizeStorage storage
           memory := standardizeMemory memory
           year := jsOrStr (extractYear processor model) (estimateYear processor)
           modelNumber := extractModelNumber processor model
           category := str "Laptops"
           deviceFamily := str "Mac" }
  else if jsIncludes combinedText (str "macbook")
      || (jsIncludes categoryLower (str "laptop")
            && jsIncludes (jsToLower brand) (str "apple")) then
    some { productType := str "MacBook"
           displaySize := jsOrStr (extractDisplaySize model processor) (str "13\"")
           processor := extractProcessorDetails processor
           storage := standardizeStorage storage
           memory := standardizeMemory memory
           year := jsOrStr (extractYear processor model) (estimateYear processor)
           modelNumber := extractModelNumber processor model
           category := str "Laptops"
           deviceFamily := str "Mac" }
  else if jsIncludes combinedText (str "ipad") || jsIncludes categoryLower (str "tablet") then
    some { productType := determineIPadTypeAdvanced model
           displaySize := extractIPadSize model processor
           processor := extractProcessorDetails processor
           storage := standardizeStorage storage
           memory := standardizeMemory memory
           year := jsOrStr (extractYear processor model) (estimateYear processor)
           modelNumber := extractModelNumber processor model
           category := str "Tablets"
           deviceFamily := str "iPad" }
  else if jsIncludes combinedText (str "iphone") || jsIncludes categoryLower (str "phone") then
    let iphoneModel := determineIPhoneModelAdvanced model
    some { productType := iphoneModel
           displaySize := getIPhoneDisplaySize iphoneModel
           processor := extractProcessorDetails processor
           storage := standardizeStorage storage
           memory := []
           year := jsOrStr (extractYear processor model) (estimateIPhoneYear iphoneModel)
           modelNumber := extractModelNumber processor model
           category := str "Phones"
           deviceFamily := str "iPhone" }
  else if jsIncludes combinedText (str "imac")
      || (jsIncludes categoryLower (str "desktop") && jsIncludes combinedText (str "imac")) then
    some { productType := str "iMac"
           displaySize := jsOrStr (extractDisplaySize model processor) (str "24\"")
           processor := extractProcessorDetails processor
           storage := standardizeStorage storage
           memory := standardizeMemory memory
           year := jsOrStr (extractYear processor model) (estimateYear processor)
           modelNumber := extractModelNumber processor model
           category := str "Desktops"
           deviceFamily := str "Mac" }
  else if jsIncludes combinedText (str "airpods") || jsIncludes combinedText (str "airpod")
      || jsIncludes categoryLower (str "accessories")
      || jsIncludes combinedText (str "magic") || jsIncludes combinedText (str "adapter")
      || jsIncludes combinedText (str "cable") then
    let accessoryType :=
      if jsIncludes combinedText (str "airpods") then str "AirPods"
      else if jsIncludes combinedText (str "magic mouse") then str "Magic Mouse"
      else if jsIncludes combinedText (str "magic keyboard") then str "Magic Keyboard"
      else str "Apple Accessory"
    some { productType := accessoryType
           displaySize := []
           processor := []
           storage := []
           memory := []
           year := jsOrStr (extractYear processor model) (str "2022")
           modelNumber := extractModelNumber processor model
           category := str "Accessories"
           deviceFamily := str "Apple Accessory" }
  else none

/-! ## Catalog content generator -/

/-- `createAdvancedGroupingKey`: non-empty core-spec components joined by
underscores, sanitised to the class `[a-zA-Z0-9_]`. -/
def createAdvancedGroupingKey (p : ProductInfo) : Str :=
  (joinSep (str "_") (filterTruthy
    [p.productType, p.displaySize, p.processor, p.storage, p.memory, p.year])).filter
    (fun c => isWordChar c)

/-- The final truncation of `createAdvancedSEOTitle`: when the title
exceeds 60 characters, the first 57 plus an ellipsis. -/
def truncate60 (title : Str) : Str :=
  if title.length > 60 then title.take 57 ++ str "..." else title

/-- `createAdvancedSEOTitle`: "Refurbished" plus type, size, cleaned
processor, year and specs, truncated to 60 characters with an ellipsis. -/
def createAdvancedSEOTitle (p : ProductInfo) : Str :=
  let title0 := str "Refurbished " ++ p.productType
  let title1 := if p.displaySize.isEmpty then title0 else title0 ++ ' ' :: p.displaySize
  let title2 :=
    if p.processor.isEmpty then title1
    else
      let cleanProcessor :=
        jsReplaceFirst (jsReplaceFirst (jsReplaceFirst p.processor
          (str "Apple ") []) (str " chip") []) (str " Chip") []
      title1 ++ ' ' :: cleanProcessor
  let title3 := if p.year.isEmpty then title2 else title2 ++ ' ' :: p.year
  let specs := filterTruthy [p.storage, p.memory]
  let title4 := if specs.isEmpty then title3 else title3 ++ ' ' :: joinSep (str " ") specs
  truncate60 title4

/-- The `retailPrices` base table of `calculateRetailPrice`. -/
def retailPrices : List (Str × ℤ) := [
  (str "MacBook Pro", 2799), (str "MacBook Air", 1599), (str "MacBook", 1999),
  (str "iPad Pro", 1399), (str "iPad Air", 899), (str "iPad", 579),
  (str "iPad Mini", 699), (str "iPhone 15", 1129), (str "iPhone 14", 999),
  (str "iPhone 13", 849), (str "iPhone 12", 699), (str "iPhone 11", 579),
  (str "iPhone SE", 579), (str "iPhone", 849), (str "iMac", 1799),
  (str "Mac Studio", 2799), (str "Mac Mini", 899), (str "AirPods", 229),
  (str "Magic Mouse", 129), (str "Magic Keyboard", 229), (str "Apple Accessory", 129)]

/-- Lookup in an integer-valued object literal. -/
def jsLookupZ (m : List (Str × ℤ)) (k : Str) : Option ℤ :=
  (m.find? (fun p => p.1 == k)).map Prod.snd

/-- `calculateRetailPrice`: base price by product type plus additive
adjustments for storage, memory, processor tier and display size. The
result is an integer, so the final `Math.round` is the identity. -/
def calculateRetailPrice (p : ProductInfo) : ℤ :=
  let base0 := (jsLookupZ retailPrices p.productType).getD 999
  let base1 :=
    if p.storage.isEmpty then base0
    else match jsParseInt p.storage with
      | some n =>
        if n ≥ 2000 then base0 + 1000
        else if n ≥ 1000 then base0 + 500
        else if n ≥ 512 then base0 + 300
        else base0
      | none => base0
  let base2 :=
    if p.memory.isEmpty then base1
    else match jsParseInt p.memory with
      | some n =>
        if n ≥ 64 then base1 + 1400
        else if n ≥ 32 then base1 + 800
        else if n ≥ 16 then base1 + 500
        else base1
      | none => base1
  let base3 :=
    if jsIncludes p.processor (str "Max") then base2 + 1000
    else if jsIncludes p.processor (str "Pro") then base2 + 500
    else if jsIncludes p.processor (str "Ultra") then base2 + 1500
    else base2
  if p.displaySize.isEmpty then base3
  else match jsParseFloat p.displaySize with
    | some v =>
      if fracGe v 16 then base3 + 300
      else if fracGe v 15 then base3 + 200
      else base3
    | none => base3

/-- The `basePrices` table of `calculateAdvancedPricing`. -/
def basePrices : List (Str × ℤ) := [
  (str "MacBook Pro", 2299), (str "MacBook Air", 1399), (str "MacBook", 1599),
  (str "iPad Pro", 1149), (str "iPad Air", 779), (str "iPad", 449),
  (str "iPad Mini", 649), (str "iPhone", 899), (str "iMac", 1699),
  (str "Mac Studio", 2499), (str "Mac Mini", 799), (str "AirPods", 199),
  (str "Magic Mouse", 99), (str "Magic Keyboard", 199), (str "Apple Accessory", 99)]

/-- `calculateAdvancedPricing` (the group's `basePrice`). -/
def calculateAdvancedPricing (p : ProductInfo) : ℤ :=
  let base0 := (jsLookupZ basePrices p.productType).getD 999
  let base1 :=
    if p.storage.isEmpty then base0
    else match jsParseInt p.storage with
      | some n =>
        if n ≥ 2000 then base0 + 800
        else if n ≥ 1000 then base0 + 400
        else if n ≥ 512 then base0 + 200
        else base0
      | none => base0
  let base2 :=
    if p.memory.isEmpty then base1
    else match jsParseInt p.memory with
      | some n =>
        if n ≥ 64 then base1 + 1000
        else if n ≥ 32 then base1 + 600
        else if n ≥ 16 then base1 + 400
        else base1
      | none => base1
  if jsIncludes p.processor (str "Max") then base2 + 800
  else if jsIncludes p.processor (str "Pro") then base2 + 400
  else if jsIncludes p.processor (str "Ultra") then base2 + 1200
  else base2

/-- The `conditionMultipliers` table of `calculateVariantPrice`, as exact
rationals in normal form (`0.70`, `0.68`, `0.66`, `0.61`). -/
def conditionMultipliers : List (Str × ℚ) := [
  (str "A", ratOf 7 10 (by norm_num) (by norm_num)),
  (str "B", ratOf 17 25 (by norm_num) (by norm_num)),
  (str "C", ratOf 33 50 (by norm_num) (by norm_num)),
  (str "D", ratOf 61 100 (by norm_num) (by norm_num))]

/-- Lookup in a rational-valued object literal. -/
def jsLookupQ (m : List (Str × ℚ)) (k : Str) : Option ℚ :=
  (m.find? (fun p => p.1 == k)).map Prod.snd

/-- `calculateVariantPrice`:
`Math.round(retailPrice * (conditionMultipliers[condition] || 0.70))`.
The float product is modelled by the exact rational product: every
reachable retail price is an integer congruent to 9 modulo 10, so the exact
product never lies on a rounding boundary and the double-precision rounding
agrees with the exact one. -/
def calculateVariantPrice (p : ProductInfo) (condition : Str) : ℤ :=
  let m := (jsLookupQ conditionMultipliers condition).getD
    (ratOf 7 10 (by norm_num) (by norm_num))
  jsRoundFrac (calculateRetailPrice p * m.num) m.den

/-- `calculateComparePrice`: the retail price for every condition. -/
def calculateComparePrice (p : ProductInfo) (condition : Str) : ℤ :=
  calculateRetailPrice p

/-- Worker for `removeAppleWs`; each step consumes at least one character,
so fuel equal to the length is never exhausted. -/
def removeAppleWsFuel : Nat → Str → Str
  | 0, s => s
  | _ + 1, [] => []
  | fuel + 1, c :: t =>
    if (str "apple").isPrefixOf (c :: t)
        && (match (c :: t).drop 5 with
            | d :: _ => jsIsWs d
            | [] => false) then
      removeAppleWsFuel fuel (((c :: t).drop 5).dropWhile jsIsWs)
    else c :: removeAppleWsFuel fuel t

/-- Global replacement of `apple` followed by a whitespace run, as performed
on the lower-cased processor in `createSEOOptimizedHandle` (the regex scans
left to right, each match removing `apple` and the whole whitespace run). -/
def removeAppleWs (s : Str) : Str := removeAppleWsFuel s.length s

/-- Worker for `removeWsChip`; fuel as for `removeAppleWsFuel`. -/
def removeWsChipFuel : Nat → Str → Str
  | 0, s => s
  | _ + 1, [] => []
  | fuel + 1, c :: t =>
    if jsIsWs c && (str "chip").isPrefixOf ((c :: t).dropWhile jsIsWs) then
      removeWsChipFuel fuel ((((c :: t).dropWhile jsIsWs)).drop 4)
    else c :: removeWsChipFuel fuel t

/-- Global replacement of a whitespace run followed by `chip`, as performed
on the lower-cased processor in `createSEOOptimizedHandle`. -/
def removeWsChip (s : Str) : Str := removeWsChipFuel s.length s

/-- The `^-` half of the edge-hyphen regex in `createSEOOptimizedHandle`:
drop one leading hyphen. -/
def stripLeadingHyphen : Str → Str
  | [] => []
  | c :: t => if c = '-' then t else c :: t

/-- The `-$` half of the edge-hyphen regex in `createSEOOptimizedHandle`:
drop one trailing hyphen. -/
def stripTrailingHyphen (s : Str) : Str :=
  (stripLeadingHyphen s.reverse).reverse

/-- `createSEOOptimizedHandle` before the final `substring(0, 255)`:
components (with internal whitespace and `apple`/`chip` cleanup on the
processor) joined by hyphens, sanitised to `[a-z0-9-]`, hyphen runs
collapsed, and one leading and one trailing hyphen removed. -/
def handleBeforeTruncation (p : ProductInfo) : Str :=
  let typeComp := collapseRuns jsIsWs '-' (jsToLower p.productType)
  let sizeComp := p.displaySize.filter (fun c => isDigit09 c || c = '.')
  let procComp := collapseRuns jsIsWs '-'
    (removeWsChip (removeAppleWs (jsToLower p.processor)))
  let components := filterTruthy
    [str "refurbished", typeComp, sizeComp, procComp, p.year,
     jsToLower p.storage, jsToLower p.memory]
  let joined := joinSep (str "-") components
  let sanitised := joined.filter
    (fun c => ('a' ≤ c && c ≤ 'z') || isDigit09 c || c = '-')
  let collapsed := collapseRuns (· = '-') '-' sanitised
  stripTrailingHyphen (stripLeadingHyphen collapsed)

/-- `createSEOOptimizedHandle`. -/
def createSEOOptimizedHandle (p : ProductInfo) : Str :=
  (handleBeforeTruncation p).take 255

/-- `getAdvancedConditionDescription`. -/
def getAdvancedConditionDescription (condition : Str) : Str :=
  let dA := str "Excellent condition - Like new appearance with minimal wear. Perfect for professionals who want the best."
  (jsLookup [
    (str "A", dA),
    (str "B", str "Very good condition - Light cosmetic wear but excellent functionality. Great balance of value and quality."),
    (str "C", str "Good condition - Visible wear but fully functional. Ideal for budget-conscious buyers who want reliability."),
    (str "D", str "Fair condition - Heavy wear but guaranteed functionality. Maximum savings for those who prioritize price.")]
    condition).getD dA

/-- `determineKeyboardLayout`. -/
def determineKeyboardLayout (item : Row) : Str :=
  let allText := jsToLower (jsOrS item.model [] ++ ' ' :: jsOrS item.commentsU []
    ++ ' ' :: jsOrS item.processor [])
  if jsIncludes allText (str "french") || jsIncludes allText (str "franÃ§ais")
      || jsIncludes allText (str "fr-ca") || jsIncludes allText (str "canadian french") then
    str "French Canadian"
  else str "English"

/-- `cleanColor`. -/
def cleanColor (color : Str) : Str :=
  if color.isEmpty then str "Space Gray"
  else
    let colorMap := [
      (str "space grey", str "Space Gray"), (str "space gray", str "Space Gray"),
      (str "spacegrey", str "Space Gray"), (str "spacegray", str "Space Gray"),
      (str "silver", str "Silver"), (str "gold", str "Gold"),
      (str "rose gold", str "Rose Gold"), (str "midnight", str "Midnight"),
      (str "starlight", str "Starlight"), (str "default", str "Space Gray")]
    let cleanedColor := jsTrim (jsToLower color)
    (jsLookup colorMap cleanedColor).getD (jsTrim color)

/-- `cleanCondition`: first occurrence of `A`-`D` in the upper-cased trimmed
string, defaulting to `A`. -/
def cleanCondition (condition : Str) : Str :=
  if condition.isEmpty then str "A"
  else
    let conditionStr := jsTrim (jsToUpper condition)
    match conditionStr.find? (fun c => c = 'A' || c = 'B' || c = 'C' || c = 'D') with
    | some c => [c]
    | none => str "A"

/-- `createAdvancedSKU`. -/
def createAdvancedSKU (p : ProductInfo) (color condition keyboardLayout : Str) : Str :=
  joinSep (str "-") (filterTruthy [
    jsToUpper (((collapseRuns jsIsWs ' ' p.productType).filter (fun c => !jsIsWs c)).take 4),
    if p.displaySize.isEmpty then [] else (p.displaySize.filter isDigit09).take 2,
    if p.processor.isEmpty then []
      else jsToUpper ((p.processor.filter (fun c => !jsIsWs c)).take 3),
    if p.storage.isEmpty then [] else p.storage.filter isDigit09,
    jsToUpper (color.take 2),
    jsToUpper condition,
    if keyboardLayout = str "French Canadian" then str "FR" else str "EN"])

/-! ## Product description generator (`createAdvancedProductDescription`)

The only non-deterministic step of the content generator lives here: the
FAQ selection `[...faqPool].sort(() => 0.5 - Math.random()).slice(0, 4)`.
The random comparator outcomes are passed in as a `List Bool` oracle
(`true` means the comparator returned a non-positive number, keeping the
left element first), and the engine's comparison sort is modelled as a
merge sort threading that oracle. -/

/-- An FAQ entry: question and answer. -/
abbrev FAQ := Str × Str

/-- Lookup in a `Nat`-valued object literal. -/
def jsLookupNat (m : List (Str × Nat)) (k : Str) : Option Nat :=
  (m.find? (fun p => p.1 == k)).map Prod.snd

/-- JS interpolation of a possibly-undefined number (`undefined` renders as
the string `undefined`). -/
def renderOptNat : Option Nat → Str
  | some n => natToStr n
  | none => str "undefined"

/-- Keyboard-availability sentence derived from the variants. -/
def keyboardInfoOf (variants : List (Str × VariantBucket)) : Str :=
  if variants.isEmpty then str "English keyboard"
  else
    let hasEnglish := variants.any (fun kv => kv.2.keyboardLayout = str "English")
    let hasFrench := variants.any (fun kv => kv.2.keyboardLayout = str "French Canadian")
    if hasEnglish && hasFrench then str "Available in English and French Canadian keyboards"
    else if hasFrench then str "French Canadian keyboard"
    else str "English keyboard"

/-- One step of the `actualPrices` accumulation: assign when the grade is
unseen or its current price is `0` (falsy) or the new price is lower. -/
def bumpActualPrice (m : List (Str × ℤ)) (grade : Str) (price : ℤ) : List (Str × ℤ) :=
  match jsLookupZ m grade with
  | none => m ++ [(grade, price)]
  | some cur => if cur = 0 || price < cur then updFirst grade (fun _ => price) m else m

/-- The `actualPrices` map: lowest variant price per grade (the
`parseFloat(variant.price) || 0` on the numeric price field is the
identity in the model). -/
def actualPricesOf (variants : List (Str × VariantBucket)) : List (Str × ℤ) :=
  variants.foldl (fun m kv => bumpActualPrice m kv.2.condition kv.2.price) []

/-- One step of the `gradeCount` accumulation
(`gradeCount[g] = (gradeCount[g] || 0) + quantity`). -/
def bumpCount (m : List (Str × Nat)) (k : Str) (d : Nat) : List (Str × Nat) :=
  if hasKeyA m k then updFirst k (fun n => n + d) m else m ++ [(k, d)]

/-- The `gradeCount` map: summed quantity per condition grade. -/
def gradeCountsOf (variants : List (Str × VariantBucket)) : List (Str × Nat) :=
  variants.foldl (fun m kv => bumpCount m kv.2.condition kv.2.quantity) []

/-- The `reduce((a, b) => gradeCount[a] > gradeCount[b] ? a : b)` step over
the insertion-ordered keys (ties keep the earlier key). -/
def reduceMaxKey (m : List (Str × Nat)) : Str :=
  match m with
  | [] => str "A"
  | (k, _) :: t =>
    t.foldl (fun a kv =>
      if (jsLookupNat m a).getD 0 > (jsLookupNat m kv.1).getD 0 then a else kv.1) k

/-- The dominant (`primary`) grade: grade with the largest summed quantity,
`A` when there are no variants. -/
def primaryGradeOf (variants : List (Str × VariantBucket)) : Str :=
  if variants.isEmpty then str "A" else reduceMaxKey (gradeCountsOf variants)

/-- `createAdvancedSEODescription`. -/
def createAdvancedSEODescription (p : ProductInfo) (variants : List (Str × VariantBucket)) : Str :=
  let primaryGrade := primaryGradeOf variants
  let discounts : List (Str × Nat) :=
    [(str "A", 30), (str "B", 32), (str "C", 34), (str "D", 39)]
  let discount := renderOptNat (jsLookupNat discounts primaryGrade)
  let productName := p.productType ++ (if p.displaySize.isEmpty then [] else ' ' :: p.displaySize)
  let processorShort := jsOrStr
    (jsReplaceFirst (jsReplaceFirst p.processor (str "Apple ") []) (str " chip") [])
    (str "M2")
  let description :=
    if primaryGrade = str "A" then
      str "Certified refurbished " ++ productName ++ ' ' :: processorShort
        ++ str " like-new condition. Save " ++ discount
        ++ str "% vs retail. 90-day warranty, free North American shipping. Shop premium quality!"
    else if primaryGrade = str "B" then
      str "Refurbished " ++ productName ++ ' ' :: processorShort
        ++ str " excellent condition. Save " ++ discount
        ++ str "% vs retail. 90-day warranty, free shipping across North America. Great value today!"
    else if primaryGrade = str "C" then
      str "Save " ++ discount ++ str "% on refurbished " ++ productName ++ ' ' :: processorShort
        ++ str ". Fully tested, 90-day warranty, free North American shipping. Budget-friendly Apple quality - order now!"
    else if primaryGrade = str "D" then
      str "Maximum savings! " ++ productName ++ ' ' :: processorShort
        ++ str " refurbished - save " ++ discount
        ++ str "% vs retail. 90-day warranty included. Best value Apple quality - shop now!"
    else
      str "Certified refurbished " ++ productName ++ ' ' :: processorShort
        ++ str ". Save up to 39% vs retail. 90-day warranty, free North American shipping. Shop quality Apple devices!"
  if description.length > 160 then description.take 157 ++ str "..." else description

/-- The fixed FAQ pool (the last entry interpolates the keyboard info). -/
def faqPool (keyboardInfo : Str) : List FAQ := [
  (str "Is this genuine Apple hardware?",
   str "100% authentic Apple hardware - never refurbished knockoffs or third-party parts."),
  (str "What does Grade A, B, C, D mean?",
   str "Grade A=like-new (30% off), Grade B=excellent (32% off), Grade C=good (34% off), Grade D=fair (39% off retail)."),
  (str "Do I get a warranty?",
   str "Yes! Every MacBook includes our 90-day warranty plus optional extended coverage available."),
  (str "Can I return if not satisfied?",
   str "Absolutely! 30-day no-questions-asked return policy for your peace of mind."),
  (str "What\x27s included in the box?",
   str "Your MacBook, original Apple charger, and all necessary documentation."),
  (str "How long will this last?",
   str "Refurbished MacBooks last just as long as new ones - these are built to run for years."),
  (str "What\x27s your refurbishment process?",
   str "Professional 47-point inspection, deep cleaning, testing, and certification by Apple-trained technicians."),
  (str "What keyboard options are available?",
   str "We offer " ++ keyboardInfo ++ str " to suit Canadian users perfectly.")]

/-- Merge step of the oracle-driven comparison sort: each comparison
consumes one oracle bit (`true` keeps the left element first, modelling a
non-positive comparator result). Fuel-structural; fuel equal to the
combined length is never exhausted. -/
def randMergeFuel {α : Type} : Nat → List α → List α → List Bool → List α × List Bool
  | 0, xs, ys, bs => (xs ++ ys, bs)
  | _ + 1, [], ys, bs => (ys, bs)
  | _ + 1, x :: xs, [], bs => (x :: xs, bs)
  | fuel + 1, x :: xs, y :: ys, bs =>
    if bs.headD true then
      let r := randMergeFuel fuel xs (y :: ys) bs.tail
      (x :: r.1, r.2)
    else
      let r := randMergeFuel fuel (x :: xs) ys bs.tail
      (y :: r.1, r.2)

/-- Worker for `randSort` (fuel bounds the recursion depth; the halving
makes fuel equal to the length sufficient). -/
def randSortFuel {α : Type} : Nat → List α → List Bool → List α × List Bool
  | 0, l, bs => (l, bs)
  | _ + 1, [], bs => ([], bs)
  | _ + 1, [x], bs => ([x], bs)
  | fuel + 1, l, bs =>
    let n := l.length / 2
    let r1 := randSortFuel fuel (l.take n) bs
    let r2 := randSortFuel fuel (l.drop n) r1.2
    randMergeFuel l.length r1.1 r2.1 r2.2

/-- Oracle-driven merge sort: the model of `array.sort(comparator)` for the
random comparator (the engine's sort algorithm is implementation-defined;
any comparison sort driven by the same oracle captures the observable
behaviour: some oracle-dependent permutation of the input). -/
def randSort {α : Type} (l : List α) (bs : List Bool) : List α × List Bool :=
  randSortFuel l.length l bs

/-- `[...faqPool].sort(() => 0.5 - Math.random()).slice(0, 4)`. -/
def selectFAQs (pool : List FAQ) (bits : List Bool) : List FAQ :=
  (randSort pool bits).1.take 4

/-- The rendered FAQ block:
`selectedFAQs.map(faq => template).join('')`. -/
def renderFAQs (faqs : List FAQ) : Str :=
  (faqs.map (fun faq =>
    str "\n      <h3>" ++ faq.1 ++ str "</h3>\n      <p>" ++ faq.2 ++ str "</p>\n    ")).join

/-- The `audienceAndUse` sentence. -/
def audienceAndUseOf (p : ProductInfo) : Str :=
  if jsIncludes p.productType (str "Pro") then
    str "Perfect for creative professionals, developers, and power users who demand peak performance for video editing, 3D rendering, and intensive multitasking."
  else if jsIncludes p.productType (str "Air") then
    str "Ideal for students, professionals, and everyday users who need portability without sacrificing performance for work, study, and creative projects."
  else
    str "Great for professionals and enthusiasts who need reliable Apple performance for work, creativity, and daily computing tasks."

/-- The part of the description template before the FAQ-block interpolation.
The prices are integers in the model, so each `Math.round` around an
interpolated price is the identity and `toLocaleString` is `localeStr`;
`primaryPrice` may be `undefined` (grade outside the price map), which JS
renders as `NaN` after `Math.round`. -/
def descPre (p : ProductInfo) (variants : List (Str × VariantBucket)) : Str :=
  let keyboardInfo := keyboardInfoOf variants
  let actualPrices := actualPricesOf variants
  let gradeAPrice := jsOrZ (jsLookupZ actualPrices (str "A")) (calculateVariantPrice p (str "A"))
  let gradeBPrice := jsOrZ (jsLookupZ actualPrices (str "B")) (calculateVariantPrice p (str "B"))
  let gradeCPrice := jsOrZ (jsLookupZ actualPrices (str "C")) (calculateVariantPrice p (str "C"))
  let gradeDPrice := jsOrZ (jsLookupZ actualPrices (str "D")) (calculateVariantPrice p (str "D"))
  let dynamicRetailPrice := jsRoundFrac (gradeAPrice * 10) 7
  let availablePrices := (actualPrices.map Prod.snd).filter (fun q => 0 < q)
  let lowestPrice := match availablePrices with
    | [] => gradeDPrice
    | x :: t => t.foldl min x
  let primaryGrade := primaryGradeOf variants
  let priceMap : List (Str × ℤ) := [(str "A", gradeAPrice), (str "B", gradeBPrice),
    (str "C", gradeCPrice), (str "D", gradeDPrice)]
  let primaryPrice : Option ℤ :=
    if variants.isEmpty then some gradeAPrice else jsLookupZ priceMap primaryGrade
  let primaryPriceStr := match primaryPrice with
    | some v => localeStr v
    | none => str "NaN"
  let audienceAndUse := audienceAndUseOf p
  str "\n  <div class=\"macbook-depot-product\">\n    <div class=\"hero-section\">\n      ðŸ”¥ <strong>SAVE UP TO 39% OFF RETAIL!</strong><br>\n      ðŸ’Ž "
  ++ p.productType
  ++ (if p.displaySize.isEmpty then [] else ' ' :: p.displaySize)
  ++ str " " ++ p.processor ++ str " " ++ p.year
  ++ str " - Starting from $" ++ localeStr lowestPrice
  ++ str "<br>\n      <small>Retail Price: $" ++ localeStr dynamicRetailPrice
  ++ str "</small>\n    </div>\n\n    <h2>âš¡ Why Choose This " ++ p.productType
  ++ str "?</h2>\n    <p>" ++ audienceAndUse ++ str " "
  ++ (if p.storage.isEmpty then [] else str "With " ++ p.storage ++ str " storage")
  ++ (if p.memory.isEmpty then [] else str " and " ++ p.memory ++ str " memory")
  ++ str ", this powerhouse delivers professional-grade performance at an unbeatable price.</p>\n\n    <h2>ðŸ’° Smart Savings by Condition Grade</h2>\n    â˜… <strong>Grade "
  ++ primaryGrade ++ str " (Most Available): $" ++ primaryPriceStr
  ++ str " - YOUR BEST VALUE</strong><br>\n    â€¢ <strong>Grade A (Like-New):</strong> $"
  ++ localeStr gradeAPrice ++ str " - Save $" ++ localeStr (dynamicRetailPrice - gradeAPrice)
  ++ str " (30%) - Perfect condition<br>\n    â€¢ <strong>Grade B (Excellent):</strong> $"
  ++ localeStr gradeBPrice ++ str " - Save $" ++ localeStr (dynamicRetailPrice - gradeBPrice)
  ++ str " (32%) - Minimal wear<br>\n    â€¢ <strong>Grade C (Good):</strong> $"
  ++ localeStr gradeCPrice ++ str " - Save $" ++ localeStr (dynamicRetailPrice - gradeCPrice)
  ++ str " (34%) - Great value<br>\n    â€¢ <strong>Grade D (Fair):</strong> $"
  ++ localeStr gradeDPrice ++ str " - Save $" ++ localeStr (dynamicRetailPrice - gradeDPrice)
  ++ str " (39%) - Maximum savings\n\n    <h2>ðŸŽ¯ What You Get</h2>\n    <ul>\n      <li>âœ… "
  ++ p.productType
  ++ (if p.displaySize.isEmpty then [] else ' ' :: p.displaySize)
  ++ str " with " ++ p.processor
  ++ str " processor</li>\n      "
  ++ (if p.storage.isEmpty then []
      else str "<li>âœ… " ++ p.storage ++ str " high-speed SSD storage</li>")
  ++ str "\n      "
  ++ (if p.memory.isEmpty then []
      else str "<li>âœ… " ++ p.memory ++ str " unified memory for seamless multitasking</li>")
  ++ str "\n      "
  ++ (if p.displaySize.isEmpty then []
      else str "<li>âœ… Stunning " ++ p.displaySize ++ str " Retina display with True Tone</li>")
  ++ str "\n      <li>âœ… " ++ keyboardInfo
  ++ str " included</li>\n      <li>âœ… Original Apple charger and documentation</li>\n      <li>âœ… Professional cleaning and testing certification</li>\n    </ul>\n\n    <h2>ðŸ›¡ï¸ Risk-Free MacBookDepot Guarantee</h2>\n    <ul>\n  <li>ðŸ›¡ï¸ <strong>Industry-leading 90-day warranty</strong> - Most competitors offer only 30 days. We stand behind our quality.</li>\n  <li>âš¡ <strong>Fast North American shipping</strong> - Order by 2 PM, ships same day. No waiting weeks like other sellers</li>\n  <li>ðŸ”„ <strong>Risk-free 30-day returns</strong> - Don\x27t love it? Return it for a full refund, no questions asked</li>\n  <li>ðŸ”§ <strong>47-point inspection process</strong> - Every device tested by Apple-certified technicians before shipping</li>\n  <li>ðŸ“ž <strong>Real human CHAT support</strong> - Talk to actual tech experts, not chatbots or overseas call centers</li>\n  <li>ðŸŒ± <strong>Environmental impact</strong> - Each refurbished device prevents 300kg of CO2 emissions vs buying new</li>\n  <li>ðŸ† <strong>Trusted by 50,000+ customers</strong> - Join thousands who\x27ve saved money without sacrificing quality</li>\n  <li>ðŸ’Ž <strong>Grade transparency</strong> - Honest condition ratings so you know exactly what you\x27re getting</li>\n</ul>\n\t\n\t<h2>ðŸ”§ Complete Technical Specifications</h2>\n    <div class=\"specs-container\">\n      <div class=\"specs-grid\">\n        \n        <div class=\"spec-category\">\n          <h3>âš¡ Performance</h3>\n          <div class=\"spec-table\">\n            <div class=\"spec-row\">\n              <span class=\"spec-label\">Processor</span>\n              <span class=\"spec-value\">"
  ++ p.processor
  ++ str " chip with Neural Engine</span>\n            </div>\n            "
  ++ (if p.memory.isEmpty then []
      else str "\n            <div class=\"spec-row\">\n              <span class=\"spec-label\">Memory (RAM)</span>\n              <span class=\"spec-value\">"
        ++ p.memory ++ str " unified memory</span>\n            </div>")
  ++ str "\n            <div class=\"spec-row\">\n              <span class=\"spec-label\">Graphics</span>\n              <span class=\"spec-value\">"
  ++ (if jsIncludes p.processor (str "Max") then str "High-performance GPU (up to 32-core)"
      else if jsIncludes p.processor (str "Pro") then str "Professional GPU (up to 19-core)"
      else str "Integrated GPU (up to 10-core)")
  ++ str "</span>\n            </div>\n          </div>\n        </div>\n\n        <div class=\"spec-category\">\n          <h3>ðŸ’¾ Storage & Display</h3>\n          <div class=\"spec-table\">\n            "
  ++ (if p.storage.isEmpty then []
      else str "\n            <div class=\"spec-row\">\n              <span class=\"spec-label\">Storage</span>\n              <span class=\"spec-value\">"
        ++ p.storage ++ str " SSD (ultra-fast)</span>\n            </div>")
  ++ str "\n            "
  ++ (if p.displaySize.isEmpty then []
      else str "\n            <div class=\"spec-row\">\n              <span class=\"spec-label\">Display Size</span>\n              <span class=\"spec-value\">"
        ++ p.displaySize
        ++ str " Liquid Retina display</span>\n            </div>\n            <div class=\"spec-row\">\n              <span class=\"spec-label\">Resolution</span>\n              <span class=\"spec-value\">"
        ++ (if p.displaySize = str "16\"" then str "Ultra-high resolution (3456Ã—2234)"
            else str "High resolution (2560Ã—1600)")
        ++ str "</span>\n            </div>")
  ++ str "\n            <div class=\"spec-row\">\n              <span class=\"spec-label\">Display Features</span>\n              <span class=\"spec-value\">True Tone, P3 wide color, anti-reflective coating</span>\n            </div>\n          </div>\n        </div>\n\n        <div class=\"spec-category\">\n          <h3>ðŸ”Œ Connectivity</h3>\n          <div class=\"spec-table\">\n            <div class=\"spec-row\">\n              <span class=\"spec-label\">Thunderbolt Ports</span>\n              <span class=\"spec-value\">"
  ++ (if p.displaySize = str "16\"" then str "Multiple Thunderbolt 4" else str "2x Thunderbolt 4")
  ++ str " (USB-C)</span>\n            </div>\n            <div class=\"spec-row\">\n              <span class=\"spec-label\">Wireless</span>\n              <span class=\"spec-value\">Wi-Fi 6, Bluetooth 5.0</span>\n            </div>\n            <div class=\"spec-row\">\n              <span class=\"spec-label\">Keyboard</span>\n              <span class=\"spec-value\">"
  ++ keyboardInfo
  ++ str " with Touch ID</span>\n            </div>\n          </div>\n        </div>\n\n        <div class=\"spec-category\">\n          <h3>ðŸ”‹ Power & Design</h3>\n          <div class=\"spec-table\">\n            <div class=\"spec-row\">\n              <span class=\"spec-label\">Battery Life</span>\n              <span class=\"spec-value\">"
  ++ (if p.displaySize = str "16\"" then str "All-day (up to 21 hours)" else str "All-day (up to 18 hours)")
  ++ str "</span>\n            </div>\n            <div class=\"spec-row\">\n              <span class=\"spec-label\">Weight</span>\n              <span class=\"spec-value\">"
  ++ (if p.displaySize = str "16\"" then str "Portable (2.1 kg / 4.7 lbs)" else str "Ultra-portable (1.4 kg / 3.0 lbs)")
  ++ str "</span>\n            </div>\n            <div class=\"spec-row\">\n              <span class=\"spec-label\">Build Quality</span>\n              <span class=\"spec-value\">Premium aluminum unibody design</span>\n            </div>\n          </div>\n        </div>\n      </div>\n    </div>\n\n    <h2>â“ Frequently Asked Questions</h2>\n    "

/-- The part of the description template after the FAQ-block interpolation. -/
def descPost (p : ProductInfo) : Str :=
  str "\n\t\n\t<h2>ðŸ”— Explore Similar Models</h2>\n    <div class=\"internal-links\">\n      "
  ++ (if jsIncludes p.productType (str "MacBook Pro") then
        str "\n        â€¢ Need more portability? <a href=\"/collections/macbook-air\">MacBook Air Collection</a><br>\n        â€¢ Want different specs? <a href=\"/collections/macbook-pro\">All MacBook Pro Models</a><br>\n        â€¢ Budget-conscious? <a href=\"/collections/grade-c-macbooks\">Grade C MacBooks</a><br>\n        â€¢ Latest processors? <a href=\"/collections/apple-silicon\">Apple Silicon Devices</a>\n      "
      else if jsIncludes p.productType (str "MacBook Air") then
        str "\n        â€¢ Need more power? <a href=\"/collections/macbook-pro\">MacBook Pro Collection</a><br>\n        â€¢ Larger screen? <a href=\"/collections/large-screen\">Large Screen MacBooks</a><br>\n        â€¢ Budget options? <a href=\"/collections/grade-d-macbooks\">Grade D MacBooks</a><br>\n        â€¢ Professional grade? <a href=\"/collections/macbook-pro\">MacBook Pro Models</a>\n      "
      else
        str "\n        â€¢ Explore all models: <a href=\"/collections/macbook\">MacBook Collection</a><br>\n        â€¢ Budget-friendly: <a href=\"/collections/grade-c-macbooks\">Grade C Devices</a><br>\n        â€¢ Latest chips: <a href=\"/collections/apple-silicon\">Apple Silicon Collection</a><br>\n        â€¢ Professional grade: <a href=\"/collections/macbook-pro\">MacBook Pro Models</a>\n      ")
  ++ str "\n    </div>\n\n    <div class=\"urgency-footer\">\n      â° <strong>Limited stock available</strong> - Refurbished Apple devices sell fast. <strong>Secure yours today!</strong>\n    </div>\n  </div>\n\n<style>\n    .hero-section \x7b\n      background: linear-gradient(45deg, #F26A38, #0085B1);\n      color: white;\n      padding: 20px;\n      border-radius: 8px;\n      text-align: center;\n      margin-bottom: 20px;\n      font-size: 1.1em;\n    \x7d\n    .urgency-footer \x7b\n      background: #fff3cd;\n      border: 1px solid #ffc107;\n      padding: 15px;\n      border-radius: 5px;\n      text-align: center;\n      margin-top: 20px;\n      font-weight: bold;\n    \x7d\n    .macbook-depot-product h2 \x7b\n      color: #333;\n      margin-top: 25px;\n      margin-bottom: 15px;\n    \x7d\n    .macbook-depot-product h3 \x7b\n      color: #555;\n      margin-top: 15px;\n      margin-bottom: 8px;\n      font-size: 1.1em;\n    \x7d\n    .macbook-depot-product ul \x7b\n      margin-left: 20px;\n    \x7d\n    .macbook-depot-product a \x7b\n      color: #007bff;\n      text-decoration: none;\n    \x7d\n    .macbook-depot-product a:hover \x7b\n      text-decoration: underline;\n    \x7d\n    .specs-container \x7b\n      background: #f8f9fa;\n      border-radius: 12px;\n      padding: 25px;\n      margin: 25px 0;\n    \x7d\n    .specs-grid \x7b\n      display: grid;\n      grid-template-columns: repeat(auto-fit, minmax(280px, 1fr));\n      gap: 20px;\n      margin-bottom: 20px;\n    \x7d\n    .spec-category \x7b\n      background: white;\n      border-radius: 8px;\n      padding: 15px;\n      box-shadow: 0 2px 8px rgba(0,0,0,0.1);\n    \x7d\n    .spec-category h3 \x7b\n      margin: 0 0 12px 0;\n      color: #333;\n      font-size: 1.1em;\n      border-bottom: 2px solid #007bff;\n      padding-bottom: 5px;\n    \x7d\n    .spec-table \x7b\n      display: flex;\n      flex-direction: column;\n      gap: 8px;\n    \x7d\n    .spec-row \x7b\n      display: flex;\n      justify-content: space-between;\n      align-items: center;\n      padding: 8px 0;\n      border-bottom: 1px solid #eee;\n    \x7d\n    .spec-row:last-child \x7b\n      border-bottom: none;\n    \x7d\n    .spec-label \x7b\n      font-weight: 600;\n      color: #555;\n      flex: 1;\n    \x7d\n    .spec-value \x7b\n      color: #333;\n      flex: 1.5;\n      text-align: right;\n      font-weight: 500;\n    \x7d\n    .internal-links \x7b\n      background: #e8f4fd;\n      padding: 15px;\n      border-radius: 8px;\n      border-left: 4px solid #007bff;\n    \x7d\n    @media (max-width: 768px) \x7b\n      .specs-grid \x7b\n        grid-template-columns: 1fr;\n      \x7d\n      .spec-row \x7b\n        flex-direction: column;\n        align-items: flex-start;\n        gap: 4px;\n      \x7d\n      .spec-value \x7b\n        text-align: left;\n      \x7d\n    \x7d\n  </style>"

/-- `createAdvancedProductDescription`: the full template, which is the
pre-FAQ part, the rendered randomly selected FAQs, and the post-FAQ part.
`bits` is the oracle for the random FAQ-shuffle comparator. -/
def createAdvancedProductDescription (p : ProductInfo)
    (variants : List (Str × VariantBucket)) (bits : List Bool) : Str :=
  descPre p variants
    ++ renderFAQs (selectFAQs (faqPool (keyboardInfoOf variants)) bits)
    ++ descPost p

/-! ## Collections, tags and grouping -/

/-- `createAdvancedCollections`. -/
def createAdvancedCollections (p : ProductInfo) : List Str :=
  let base := [p.productType, p.category]
    ++ (if p.deviceFamily.isEmpty then [] else [p.deviceFamily])
    ++ (if p.processor.isEmpty then []
        else if jsIncludes p.processor (str "M3") then [str "M3 Chip Devices"]
        else if jsIncludes p.processor (str "M2") then [str "M2 Chip Devices"]
        else if jsIncludes p.processor (str "M1") then [str "M1 Chip Devices"]
        else if jsIncludes p.processor (str "Intel") then [str "Intel Mac"]
        else [])
    ++ (if p.year.isEmpty then [] else [p.year ++ str " Models"])
    ++ (if p.displaySize.isEmpty then []
        else match jsParseFloat p.displaySize with
          | some v =>
            if fracGe v 15 then [str "Large Screen"]
            else if fracGe v 13 then [str "Standard Screen"]
            else if fracGt v 0 then [str "Compact"]
            else []
          | none => [])
    ++ [str "Certified Refurbished", str "Apple"]
  dedupFirst base

/-- Whether the processor string matches the regex `M[1-4]`. -/
def hasAppleSiliconTag (s : Str) : Bool :=
  jsIncludes s (str "M1") || jsIncludes s (str "M2")
    || jsIncludes s (str "M3") || jsIncludes s (str "M4")

/-- `createAdvancedTags`. The source also inspects
`productInfo.keyboardLayout`, a field `analyzeProductAdvanced` never sets,
so that branch never fires for classifier-produced specs and is modelled as
absent. -/
def createAdvancedTags (p : ProductInfo) : List Str :=
  [str "refurbished", str "apple", str "certified"]
  ++ [collapseRuns jsIsWs '-' (jsToLower p.productType)]
  ++ (if p.processor.isEmpty then []
      else
        [collapseRuns jsIsWs '-' (jsToLower p.processor)]
        ++ (if jsIncludes p.processor (str "M4") then [str "m4-chip"]
            else if jsIncludes p.processor (str "M3") then [str "m3-chip"]
            else if jsIncludes p.processor (str "M2") then [str "m2-chip"]
            else if jsIncludes p.processor (str "M1") then [str "m1-chip"]
            else [])
        ++ (if jsIncludes p.processor (str "Ultra") then [str "ultra-chip"]
            else if jsIncludes p.processor (str "Max") then [str "max-chip"]
            else if jsIncludes p.processor (str "Pro") then [str "pro-chip"]
            else [])
        ++ (if hasAppleSiliconTag p.processor then [str "apple-silicon"]
            else if jsIncludes p.processor (str "Intel") then [str "intel"]
            else []))
  ++ (if p.storage.isEmpty then [] else [jsToLower p.storage])
  ++ (if p.memory.isEmpty then []
      else [jsReplaceFirst (jsToLower p.memory) (str "gb") (str "gb-ram")])
  ++ (if p.displaySize.isEmpty then [] else [(jsToLower p.displaySize).filter isWordChar])
  ++ (if p.year.isEmpty then [] else [p.year])
  ++ (if p.deviceFamily.isEmpty then [] else [collapseRuns jsIsWs '-' (jsToLower p.deviceFamily)])
  ++ [jsToLower p.category]
  ++ [str "canada", str "canadian", str "macbook-depot"]

/-- The variant key `${color}-${condition}-${keyboardLayout}` used by
`createProductGroups`. -/
def variantKeyOf (color condition keyboardLayout : Str) : Str :=
  color ++ '-' :: condition ++ '-' :: keyboardLayout

/-- The stock item recorded for a row (`dateAdded` is the run timestamp). -/
def rowStockItem (now : Str) (item : Row) : StockItem :=
  { stockId := jsOrS item.stockU (jsOrS item.stockL [])
    serialNumber := jsOrS item.serialNumberU (jsOrS item.serialL (jsOrS item.serialU []))
    comments := jsOrS item.commentsU (jsOrS item.commentsL [])
    condition := cleanCondition (jsOrS item.conditionU (jsOrS item.conditionL (str "A")))
    color := cleanColor (jsOrS item.colorU (jsOrS item.colorL (str "Space Gray")))
    keyboardLayout := determineKeyboardLayout item
    dateAdded := now
    originalData := item }

/-- The freshly initialised product group for a classification result
(`variants` and `stockItems` empty, `totalUnits` zero). The initial
`productDescription` consumes random bits; it is recomputed for every group
at the end of `createProductGroups`, so the bits used here never reach the
result. -/
def initGroup (info : ProductInfo) (now : Str) (bits : List Bool) : ProductGroup :=
  { productType := info.productType
    displaySize := info.displaySize
    processor := info.processor
    storage := info.storage
    memory := info.memory
    year := info.year
    modelNumber := info.modelNumber
    seoTitle := createAdvancedSEOTitle info
    seoDescription := createAdvancedSEODescription info []
    seoHandle := createSEOOptimizedHandle info
    productDescription := createAdvancedProductDescription info [] bits
    basePrice := calculateAdvancedPricing info
    retailPrice := calculateRetailPrice info
    collections := createAdvancedCollections info
    tags := createAdvancedTags info
    totalUnits := some 0
    variants := []
    stockItems := []
    shopifyProductId := none
    lastUpdated := now }

/-- The freshly initialised variant bucket. -/
def initBucket (info : ProductInfo) (color condition keyboardLayout : Str) : VariantBucket :=
  { color := color
    condition := condition
    keyboardLayout := keyboardLayout
    conditionDescription := getAdvancedConditionDescription condition
    quantity := 0
    stockItems := []
    sku := createAdvancedSKU info color condition keyboardLayout
    price := calculateVariantPrice info condition
    compareAtPrice := calculateComparePrice info condition }

/-- Push one stock item into a group: ensure the bucket exists, then push
onto the bucket's and the group's stock lists and bump both counters
(the four mutation statements of `createProductGroups`). -/
def addItemToGroup (info : ProductInfo) (vk : Str) (color condition keyboardLayout : Str)
    (it : StockItem) (g : ProductGroup) : ProductGroup :=
  let vs :=
    if hasKeyA g.variants vk then g.variants
    else g.variants ++ [(vk, initBucket info color condition keyboardLayout)]
  let vs2 := updFirst vk
    (fun b => { b with stockItems := b.stockItems ++ [it], quantity := b.quantity + 1 }) vs
  { g with
    variants := vs2
    stockItems := g.stockItems ++ [it]
    totalUnits := g.totalUnits.map (· + 1) }

/-- The accumulating state of the `createProductGroups` loop. -/
structure GroupsAcc where
  groups : List (Str × ProductGroup)
  categories : List (Str × Nat)

/-- One iteration of the `appleProducts.forEach` loop of
`createProductGroups` (the modelled helpers are total, so the per-item
`try`/`catch` never fires). -/
def processItem (now : Str) (rbits : Str → List Bool) (st : GroupsAcc) (item : Row) : GroupsAcc :=
  match analyzeProductAdvanced item with
  | none => st
  | some info =>
    let groupKey := createAdvancedGroupingKey info
    let groups1 :=
      if hasKeyA st.groups groupKey then st.groups
      else st.groups ++ [(groupKey, initGroup info now (rbits groupKey))]
    let it := rowStockItem now item
    let groups2 := updFirst groupKey
      (addItemToGroup info (variantKeyOf it.color it.condition it.keyboardLayout)
        it.color it.condition it.keyboardLayout it) groups1
    { groups := groups2
      categories := bumpCount st.categories info.productType 1 }

/-- The result record of `createProductGroups`. The final
`totalUniqueUnits` reduce treats each group's `totalUnits` as a number; the
groups built here always carry one, modelled by `getD 0`. -/
structure GroupsResult where
  productGroups : List (Str × ProductGroup)
  categories : List (Str × Nat)
  totalItems : Nat
  groupCount : Nat
  totalUniqueUnits : Nat
deriving DecidableEq, Repr

/-- The spec object rebuilt for the final description pass (its literal
only carries the six core fields; the remaining `ProductInfo` fields are
not read by the description functions and are modelled as empty). -/
def rebuildInfo (g : ProductGroup) : ProductInfo :=
  { productType := g.productType
    displaySize := g.displaySize
    processor := g.processor
    storage := g.storage
    memory := g.memory
    year := g.year
    modelNumber := []
    category := []
    deviceFamily := [] }

/-- `createProductGroups`: fold the rows into groups, then recompute every
group's SEO description and product description from its final variants.
`now` models `new Date().toISOString()` and `rbits` supplies, per group
key, the comparator oracle for the final description's FAQ shuffle. -/
def createProductGroups (appleProducts : List Row) (now : Str)
    (rbits : Str → List Bool) : GroupsResult :=
  let st := appleProducts.foldl (processItem now rbits) ⟨[], []⟩
  let productGroups := st.groups.map (fun kg =>
    (kg.1, { kg.2 with
      seoDescription := createAdvancedSEODescription (rebuildInfo kg.2) kg.2.variants
      productDescription :=
        createAdvancedProductDescription (rebuildInfo kg.2) kg.2.variants (rbits kg.1) }))
  { productGroups := productGroups
    categories := st.categories
    totalItems := appleProducts.length
    groupCount := productGroups.length
    totalUniqueUnits := productGroups.foldl (fun sum kg => sum + kg.2.totalUnits.getD 0) 0 }

/-! ## Shopify variant construction and sync planning -/

/-- `estimateWeight` (kilograms). -/
def estimateWeight (productType : Str) : ℚ :=
  ((jsLookupQ [
    (str "MacBook Pro", 2),
    (str "MacBook Air", ratOf 13 10 (by norm_num) (by norm_num)),
    (str "MacBook", ratOf 3 2 (by norm_num) (by norm_num)),
    (str "iPad Pro", ratOf 7 10 (by norm_num) (by norm_num)),
    (str "iPad Air", ratOf 3 5 (by norm_num) (by norm_num)),
    (str "iPad", ratOf 1 2 (by norm_num) (by norm_num)),
    (str "iPad Mini", ratOf 3 10 (by norm_num) (by norm_num)),
    (str "iPhone", ratOf 1 5 (by norm_num) (by norm_num)),
    (str "iMac", ratOf 9 2 (by norm_num) (by norm_num)),
    (str "Mac Studio", ratOf 27 10 (by norm_num) (by norm_num)),
    (str "Mac Mini", ratOf 6 5 (by norm_num) (by norm_num)),
    (str "AirPods", ratOf 1 10 (by norm_num) (by norm_num)),
    (str "Magic Mouse", ratOf 1 10 (by norm_num) (by norm_num)),
    (str "Magic Keyboard", ratOf 3 10 (by norm_num) (by norm_num)),
    (str "Apple Accessory", ratOf 1 5 (by norm_num) (by norm_num))]) productType).getD 1

/-- `createVariantSKU` (used by the default fallback variant). -/
def createVariantSKU (g : ProductGroup) (color condition keyboardLayout stockId : Str) : Str :=
  joinSep (str "-") (filterTruthy [
    if g.productType.isEmpty then str "PROD"
      else jsToUpper ((g.productType.filter (fun c => !jsIsWs c)).take 4),
    if g.displaySize.isEmpty then [] else (g.displaySize.filter isDigit09).take 2,
    if g.processor.isEmpty then []
      else jsToUpper ((g.processor.filter (fun c => !jsIsWs c)).take 3),
    if g.storage.isEmpty then [] else g.storage.filter isDigit09,
    if color.isEmpty then str "SG" else jsToUpper (color.take 2),
    if condition.isEmpty then str "A" else jsToUpper condition,
    if keyboardLayout = str "French Canadian" then str "FR" else str "EN",
    if stockId.isEmpty then [] else stockId.drop (stockId.length - 4)])

/-- A Shopify variant payload as built by `createAdvancedVariants`.
`Option` fields are keys the default fallback variant omits, or that may be
`null` (`compare_at_price`). -/
structure ShopifyVariant where
  title : Str
  option1 : Str
  option2 : Str
  option3 : Str
  inventory_quantity : Nat
  inventory_management : Str
  inventory_policy : Str
  sku : Str
  barcode : Option Str
  price : Str
  compare_at_price : Option Str
  weight : ℚ
  weight_unit : Str
  requires_shipping : Bool
  taxable : Bool
  fulfillment_service : Option Str
deriving DecidableEq, Repr

/-- The aggregation record of the `variantMap` in `createAdvancedVariants`. -/
structure AggVariant where
  color : Str
  condition : Str
  keyboardLayout : Str
  inventory_quantity : Nat
  stockItems : List StockItem
  skus : List Str
  barcodes : List Str
deriving DecidableEq, Repr

/-- The aggregation key `${color}|${condition}|${keyboardLayout}`. -/
def aggKeyOf (color condition keyboardLayout : Str) : Str :=
  color ++ '|' :: condition ++ '|' :: keyboardLayout

/-- One iteration of the stock-item aggregation loop of
`createAdvancedVariants`: items without a stock id or serial number are
skipped. -/
def aggStep (m : List (Str × AggVariant)) (si : StockItem) : List (Str × AggVariant) :=
  if si.stockId.isEmpty || si.serialNumber.isEmpty then m
  else
    let vk := aggKeyOf si.color si.condition si.keyboardLayout
    let fresh : AggVariant :=
      { color := si.color
        condition := si.condition
        keyboardLayout := si.keyboardLayout
        inventory_quantity := 0
        stockItems := []
        skus := []
        barcodes := [] }
    let m1 := if hasKeyA m vk then m else m ++ [(vk, fresh)]
    updFirst vk (fun v => { v with
      inventory_quantity := v.inventory_quantity + 1
      stockItems := v.stockItems ++ [si]
      skus := v.skus ++ [si.stockId]
      barcodes := v.barcodes ++ [si.serialNumber] }) m1

/-- Conversion of one aggregated record to the Shopify payload format. -/
def aggToShopify (g : ProductGroup) (v : AggVariant) : ShopifyVariant :=
  let price := calculateVariantPrice (rebuildInfo g) v.condition
  let compareAtPrice := calculateComparePrice (rebuildInfo g) v.condition
  { title := v.color ++ str " - Grade " ++ v.condition ++ str " - " ++ v.keyboardLayout
    option1 := v.color
    option2 := str "Grade " ++ v.condition
    option3 := v.keyboardLayout
    inventory_quantity := v.inventory_quantity
    inventory_management := str "shopify"
    inventory_policy := str "deny"
    sku := joinSep (str "-") v.skus
    barcode := v.barcodes.head?
    price := intToStr price
    compare_at_price := if compareAtPrice > price then some (intToStr compareAtPrice) else none
    weight := estimateWeight g.productType
    weight_unit := str "kg"
    requires_shipping := true
    taxable := true
    fulfillment_service := some (str "manual") }

/-- Structural merge step for `sortBy` (fuel equal to the combined length
is never exhausted). -/
def mergeBy {α : Type} (le : α → α → Bool) : Nat → List α → List α → List α
  | 0, xs, ys => xs ++ ys
  | _ + 1, [], ys => ys
  | _ + 1, x :: xs, [] => x :: xs
  | fuel + 1, x :: xs, y :: ys =>
    if le x y then x :: mergeBy le fuel xs (y :: ys)
    else y :: mergeBy le fuel (x :: xs) ys

/-- Structural stable merge sort, the model of `array.sort(comparator)`
with a consistent comparator (fuel bounds the recursion depth). -/
def sortBy {α : Type} (le : α → α → Bool) : Nat → List α → List α
  | 0, l => l
  | _ + 1, [] => []
  | _ + 1, [x] => [x]
  | fuel + 1, l =>
    let n := l.length / 2
    mergeBy le l.length (sortBy le fuel (l.take n)) (sortBy le fuel (l.drop n))

/-- The sorting comparator of `createAdvancedVariants`: by `option1`, then
`option2`, then `option3` (`localeCompare` modelled as code-point order). -/
def variantLe (a b : ShopifyVariant) : Bool :=
  if a.option1 ≠ b.option1 then decide (a.option1 < b.option1)
  else if a.option2 ≠ b.option2 then decide (a.option2 < b.option2)
  else !decide (b.option3 < a.option3)

/-- The default fallback variant pushed when no variants were aggregated. -/
def defaultVariant (g : ProductGroup) : ShopifyVariant :=
  { title := str "Default - Grade A - English"
    option1 := str "Space Gray"
    option2 := str "Grade A"
    option3 := str "English"
    inventory_quantity := g.totalUnits.getD 0
    inventory_management := str "shopify"
    inventory_policy := str "deny"
    sku := createVariantSKU g (str "Space Gray") (str "A") (str "English") []
    barcode := none
    price := intToStr g.basePrice
    compare_at_price := none
    weight := estimateWeight g.productType
    weight_unit := str "kg"
    requires_shipping := true
    taxable := true
    fulfillment_service := none }

/-- `createAdvancedVariants`: aggregate the group's stock items by
(color, condition, keyboard) — skipping items without a stock id or serial
number — convert each aggregate to a Shopify variant, sort, and fall back
to a single default variant when the list came out empty. -/
def createAdvancedVariants (g : ProductGroup) : List ShopifyVariant :=
  let variantMap := g.stockItems.foldl aggStep []
  let variants := variantMap.map (fun kv => aggToShopify g kv.2)
  let sorted := sortBy variantLe variants.length variants
  if sorted.isEmpty then [defaultVariant g] else sorted

/-- The option lists of the create payload: the distinct `option1`,
`option2`, `option3` values of the variants. -/
structure ProductOptions where
  colorOptions : List Str
  conditionOptions : List Str
  keyboardOptions : List Str
deriving DecidableEq, Repr

/-- The product-create payload assembled by `createNewProductAdvanced`
(the part submitted in the `POST products.json` body). -/
structure ProductPayload where
  title : Str
  body_html : Str
  vendor : Str
  product_type : Str
  status : Str
  handle : Str
  options : ProductOptions
  variants : List ShopifyVariant
  tags : Str
  seo_title : Str
  seo_description : Str
deriving DecidableEq, Repr

/-- `createNewProductAdvanced`'s payload construction. `bits` is the FAQ
oracle consumed by the description stored on the group (already part of
`g.productDescription`), so none is needed here. -/
def createNewProductPayload (g : ProductGroup) : ProductPayload :=
  let variants := createAdvancedVariants g
  { title := g.seoTitle
    body_html := g.productDescription
    vendor := str "Apple"
    product_type := g.productType
    status := str "active"
    handle := createSEOOptimizedHandle (rebuildInfo g)
    options :=
      { colorOptions := dedupFirst (variants.map (·.option1))
        conditionOptions := dedupFirst (variants.map (·.option2))
        keyboardOptions := dedupFirst (variants.map (·.option3)) }
    variants := variants
    tags := joinSep (str ", ") g.tags
    seo_title := g.seoTitle
    seo_description := g.seoDescription }

/-- A variant of an existing remote product as returned by the Shopify API
(`inventory_quantity` may be absent). -/
structure RemoteVariant where
  id : ℤ
  option1 : Str
  option2 : Str
  option3 : Str
  inventory_quantity : Option ℤ
deriving DecidableEq, Repr

/-- An existing remote product (the fields the reconciler reads). -/
structure RemoteProduct where
  id : ℤ
  title : Str
  variants : List RemoteVariant
deriving DecidableEq, Repr

/-- `findExistingProductAdvanced`: the first existing product whose title
matches the group's generated title exactly, case-insensitively; no
partial matching. -/
def findExistingProductAdvanced (existingProducts : List RemoteProduct)
    (productGroup : ProductGroup) : Option RemoteProduct :=
  let searchTitle := jsToLower productGroup.seoTitle
  existingProducts.find? (fun product => jsToLower product.title == searchTitle)

/-- The variant-level call issued for one new variant during
`updateExistingProductAdvanced`: either a `PUT variants/{id}.json` carrying
the summed inventory, or a `POST products/{id}/variants.json` creating the
variant. -/
inductive VariantOp
  | updateVariant (id : ℤ) (inventory_quantity : ℤ) (price : Str)
      (compare_at_price : Option Str) (sku : Str)
  | createVariant (v : ShopifyVariant)
deriving DecidableEq, Repr

/-- The existing-variant match of the update loop: first remote variant
whose `(option1, option2, option3)` triple equals the new variant's. -/
def findMatchingVariant (evs : List RemoteVariant) (nv : ShopifyVariant) :
    Option RemoteVariant :=
  evs.find? (fun v =>
    v.option1 == nv.option1 && v.option2 == nv.option2 && v.option3 == nv.option3)

/-- The call issued for one new variant: on a match, the submitted
inventory is `(existing.inventory_quantity || 0) + parseInt(new.inventory_quantity)`
(the `parseInt` of the numeric field is the identity). -/
def variantOpFor (evs : List RemoteVariant) (nv : ShopifyVariant) : VariantOp :=
  match findMatchingVariant evs nv with
  | some ev =>
    .updateVariant ev.id (ev.inventory_quantity.getD 0 + (nv.inventory_quantity : ℤ))
      nv.price nv.compare_at_price nv.sku
  | none => .createVariant nv

/-- The sequence of variant-level calls `updateExistingProductAdvanced`
submits for a group against an existing product, in loop order (execution
stops early only when a call fails; each issued call's payload is as
listed). -/
def updateExistingProductPlan (existingProduct : RemoteProduct)
    (productGroup : ProductGroup) : List VariantOp :=
  (createAdvancedVariants productGroup).map (variantOpFor existingProduct.variants)

/-- The result of a successful `updateExistingProductAdvanced` call (the
fields read by the sync loop). -/
structure UpdateResult where
  variantsUpdated : Nat
  stockItemsProcessed : Nat
deriving DecidableEq, Repr

/-- The result of a successful `createNewProductAdvanced` call (the fields
read by the sync loop). -/
structure CreateResult where
  variantsCreated : Nat
  stockItemsProcessed : Nat
deriving DecidableEq, Repr

/-- A product-level call issued by the sync loop for one group. -/
inductive ApiCall
  | updateProduct (id : ℤ)
  | createProduct (title : Str)
deriving DecidableEq, Repr

/-- The contribution of one group to the sync results, together with the
product-level calls issued. -/
structure SyncDelta where
  created : Nat
  updated : Nat
  errors : Nat
  details : List Str
  calls : List ApiCall
deriving DecidableEq, Repr

/-- One iteration of the per-group loop of the `/api/sync-shopify` handler.
The network outcomes of the update and create calls are oracle arguments
(`Except` carrying the error message on failure): when an existing product
with the exactly matching title is found the update path runs — and on
failure the group is recorded as an error and explicitly not retried as a
create — otherwise the create path runs. -/
def processGroupSync (existingProducts : List RemoteProduct) (productGroup : ProductGroup)
    (updateOutcome : Except Str UpdateResult)
    (createOutcome : Except Str CreateResult) : SyncDelta :=
  match findExistingProductAdvanced existingProducts productGroup with
  | some existingProduct =>
    match updateOutcome with
    | .ok ur =>
      { created := 0
        updated := 1
        errors := 0
        details := [str "âœ… Updated: " ++ productGroup.seoTitle ++ str " ("
          ++ natToStr ur.variantsUpdated ++ str " variants, "
          ++ natToStr ur.stockItemsProcessed ++ str " items)"]
        calls := [.updateProduct existingProduct.id] }
    | .error msg =>
      { created := 0
        updated := 0
        errors := 1
        details := [str "âŒ Update failed for: " ++ productGroup.seoTitle ++ str " - "
          ++ msg ++ str " (SKIPPED to prevent duplicate)"]
        calls := [.updateProduct existingProduct.id] }
  | none =>
    match createOutcome with
    | .ok cr =>
      { created := 1
        updated := 0
        errors := 0
        details := [str "ðŸ†• Created: " ++ productGroup.seoTitle ++ str " ("
          ++ natToStr cr.variantsCreated ++ str " variants, "
          ++ natToStr cr.stockItemsProcessed ++ str " items)"]
        calls := [.createProduct productGroup.seoTitle] }
    | .error msg =>
      { created := 0
        updated := 0
        errors := 1
        details := [str "âŒ Create failed for: " ++ productGroup.seoTitle ++ str " - " ++ msg]
        calls := [.createProduct productGroup.seoTitle] }

/-! ## Supporting lemmas -/

theorem lookupA_nil {α : Type} (k : Str) : lookupA ([] : List (Str × α)) k = none := rfl

theorem lookupA_cons {α : Type} (p : Str × α) (t : List (Str × α)) (k : Str) :
    lookupA (p :: t) k = if p.1 = k then some p.2 else lookupA t k := by
  by_cases h : (p.1 == k) = true
  · have he : p.1 = k := by simpa [beq_iff_eq] using h
    simp [lookupA, List.find?_cons_of_pos _ h, he]
  · have he : ¬ p.1 = k := by simpa [beq_iff_eq] using h
    have h2 : ¬ ((fun q : Str × α => q.1 == k) p) = true := h
    simp only [lookupA]
    rw [List.find?_cons_of_neg t h2, if_neg he]

theorem updFirst_nil {α : Type} (k : Str) (f : α → α) : updFirst k f [] = [] := rfl

theorem updFirst_cons {α : Type} (k : Str) (f : α → α) (p : Str × α) (t : List (Str × α)) :
    updFirst k f (p :: t) = if p.1 = k then (p.1, f p.2) :: t else p :: updFirst k f t := by
  by_cases h : (p.1 == k) = true
  · have he : p.1 = k := by simpa [beq_iff_eq] using h
    simp [updFirst, h, he]
  · have he : ¬ p.1 = k := by simpa [beq_iff_eq] using h
    simp [updFirst, h, he]

theorem hasKeyA_nil {α : Type} (k : Str) : hasKeyA ([] : List (Str × α)) k = false := rfl

theorem hasKeyA_cons {α : Type} (p : Str × α) (t : List (Str × α)) (k : Str) :
    hasKeyA (p :: t) k = (decide (p.1 = k) || hasKeyA t k) := by
  show ((p.1 == k) || hasKeyA t k) = (decide (p.1 = k) || hasKeyA t k)
  by_cases hp : p.1 = k
  · simp [hp]
  · have hb : (p.1 == k) = false := by simpa [beq_iff_eq] using hp
    simp [hb, hp]

theorem lookupA_append_ne {α : Type} (m : List (Str × α)) (k k' : Str) (x : α)
    (h : k' ≠ k) : lookupA (m ++ [(k', x)]) k = lookupA m k := by
  induction m with
  | nil => simp [lookupA_cons, lookupA_nil, h]
  | cons p t ih =>
    by_cases hp : p.1 = k <;> simp [lookupA_cons, hp, ih]

theorem lookupA_append_self {α : Type} (m : List (Str × α)) (k : Str) (x : α)
    (h : lookupA m k = none) : lookupA (m ++ [(k, x)]) k = some x := by
  induction m with
  | nil => simp [lookupA_cons]
  | cons p t ih =>
    by_cases hp : p.1 = k
    · simp [lookupA_cons, hp] at h
    · simp only [lookupA_cons, hp, if_neg, if_false] at h
      simp [lookupA_cons, hp, ih h]

theorem lookupA_updFirst {α : Type} (m : List (Str × α)) (k : Str) (f : α → α) :
    lookupA (updFirst k f m) k = (lookupA m k).map f := by
  induction m with
  | nil => simp [lookupA_nil, updFirst_nil]
  | cons p t ih =>
    by_cases hp : p.1 = k <;> simp [updFirst_cons, lookupA_cons, hp, ih]

theorem lookupA_updFirst_ne {α : Type} (m : List (Str × α)) (k k' : Str) (f : α → α)
    (h : k' ≠ k) : lookupA (updFirst k' f m) k = lookupA m k := by
  induction m with
  | nil => simp [updFirst_nil]
  | cons p t ih =>
    by_cases hp : p.1 = k'
    · have hpk : ¬ p.1 = k := by rw [hp]; exact h
      simp [updFirst_cons, lookupA_cons, hp, hpk, h]
    · by_cases hk : p.1 = k
      · have hkk : ¬ k = k' := fun he => h he.symm
        simp [updFirst_cons, lookupA_cons, hp, hk, hkk]
      · simp [updFirst_cons, lookupA_cons, hp, hk, ih]

theorem hasKeyA_iff_lookupA {α : Type} (m : List (Str × α)) (k : Str) :
    hasKeyA m k = true ↔ (lookupA m k).isSome := by
  induction m with
  | nil => simp [hasKeyA_nil, lookupA_nil]
  | cons p t ih =>
    by_cases hp : p.1 = k <;> simp [hasKeyA_cons, lookupA_cons, hp, ih]

theorem lookupA_mem {α : Type} (m : List (Str × α)) (k : Str) (x : α)
    (h : lookupA m k = some x) : (k, x) ∈ m := by
  induction m with
  | nil => simp [lookupA_nil] at h
  | cons p t ih =>
    by_cases hp : p.1 = k
    · simp only [lookupA_cons, hp, if_pos, Option.some.injEq] at h
      obtain ⟨a, b⟩ := p
      simp only [List.mem_cons]
      left
      simp only at hp
      rw [← hp, ← h]
    · simp only [lookupA_cons, hp, if_neg, if_false] at h
      exact List.mem_cons_of_mem _ (ih h)

theorem mem_updFirst {α : Type} (m : List (Str × α)) (k : Str) (f : α → α)
    (kg : Str × α) (h : kg ∈ updFirst k f m) :
    kg ∈ m ∨ ∃ kg2 ∈ m, kg = (kg2.1, f kg2.2) := by
  induction m with
  | nil => simp [updFirst_nil] at h
  | cons p t ih =>
    by_cases hp : p.1 = k
    · simp only [updFirst_cons, hp, if_pos, List.mem_cons] at h
      rcases h with h | h
      · exact Or.inr ⟨p, List.mem_cons_self _ _, by rw [hp]; exact h⟩
      · exact Or.inl (List.mem_cons_of_mem _ h)
    · simp only [updFirst_cons, hp, if_neg, if_false, List.mem_cons] at h
      rcases h with h | h
      · exact Or.inl (by simp [h])
      · rcases ih h with h2 | ⟨kg2, hm, he⟩
        · exact Or.inl (List.mem_cons_of_mem _ h2)
        · exact Or.inr ⟨kg2, List.mem_cons_of_mem _ hm, he⟩

/-! ## Claim C6: variant pricing -/

/-- Rounding half up of the exact fraction `a / b` is the floor of
`a / b + 1 / 2`. -/
theorem jsRoundFrac_eq_floor (a : ℤ) (b : ℕ) (hb : 0 < b) :
    jsRoundFrac a b = ⌊(a : ℚ) / (b : ℚ) + 1 / 2⌋ := by
  have hb2 : (0 : ℤ) < 2 * (b : ℤ) := by positivity
  have hbq : (0 : ℚ) < ((2 * (b : ℤ) : ℤ) : ℚ) := by exact_mod_cast hb2
  have hmod1 : 0 ≤ (2 * a + b) % (2 * (b : ℤ)) := Int.emod_nonneg _ (by omega)
  have hmod2 : (2 * a + b) % (2 * (b : ℤ)) < 2 * b := Int.emod_lt_of_pos _ hb2
  have hdecomp := Int.ediv_add_emod (2 * a + b) (2 * (b : ℤ))
  have hq : (a : ℚ) / (b : ℚ) + 1 / 2 = ((2 * a + b : ℤ) : ℚ) / ((2 * (b : ℤ) : ℤ) : ℚ) := by
    have hbq0 : ((b : ℕ) : ℚ) ≠ 0 := by positivity
    field_simp
    ring
  rw [hq]
  symm
  rw [Int.floor_eq_iff]
  constructor
  · rw [le_div_iff hbq]
    have : jsRoundFrac a b * (2 * (b : ℤ)) ≤ 2 * a + b := by
      have h1 : 2 * (b : ℤ) * ((2 * a + b) / (2 * (b : ℤ))) ≤ 2 * a + b := by
        omega
      calc jsRoundFrac a b * (2 * (b : ℤ))
          = 2 * (b : ℤ) * ((2 * a + b) / (2 * (b : ℤ))) := by
            unfold jsRoundFrac
            push_cast
            ring
        _ ≤ 2 * a + b := h1
    exact_mod_cast this
  · rw [div_lt_iff hbq]
    have : 2 * a + b < (jsRoundFrac a b + 1) * (2 * (b : ℤ)) := by
      have h1 : 2 * a + b < 2 * (b : ℤ) * ((2 * a + b) / (2 * (b : ℤ))) + 2 * b := by
        omega
      calc (2 * a + b : ℤ)
          < 2 * (b : ℤ) * ((2 * a + b) / (2 * (b : ℤ))) + 2 * b := h1
        _ = (jsRoundFrac a b + 1) * (2 * (b : ℤ)) := by
            unfold jsRoundFrac
            push_cast
            ring
    exact_mod_cast this

/-- The discount multipliers as stated by the specification:
grade A is 30% off retail, B 32%, C 34%, D 39%. -/
def specConditionMultiplier (g : Str) : ℚ :=
  if g = str "A" then 70 / 100
  else if g = str "B" then 68 / 100
  else if g = str "C" then 66 / 100
  else 61 / 100

/-- C6: for every product spec and grade in A-D, the variant price is
exactly the rounding (half towards plus infinity, as `Math.round`) of
`retailPrice * multiplier[grade]` with multipliers 0.70/0.68/0.66/0.61,
and the compare-at price is the retail price for every grade. -/
theorem claim_C6 (p : ProductInfo) (g : Str)
    (h : g = str "A" ∨ g = str "B" ∨ g = str "C" ∨ g = str "D") :
    calculateVariantPrice p g =
      ⌊(calculateRetailPrice p : ℚ) * specConditionMultiplier g + 1 / 2⌋ ∧
    calculateComparePrice p g = calculateRetailPrice p := by
  have key : ∀ (mnum : ℤ) (mden : ℕ), 0 < mden → ∀ m : ℚ, m = (mnum : ℚ) / (mden : ℚ) →
      jsRoundFrac (calculateRetailPrice p * mnum) mden =
        ⌊(calculateRetailPrice p : ℚ) * m + 1 / 2⌋ := by
    intro mnum mden hden m hm
    rw [jsRoundFrac_eq_floor _ _ hden, hm]
    congr 1
    push_cast
    ring
  rcases h with h | h | h | h <;> subst h <;> refine ⟨?_, rfl⟩
  · have h1 : calculateVariantPrice p (str "A") =
        jsRoundFrac (calculateRetailPrice p * 7) 10 := rfl
    have h2 : specConditionMultiplier (str "A") = (7 : ℚ) / 10 := by
      simp only [specConditionMultiplier, if_pos rfl]
      norm_num
    rw [h1]
    exact key 7 10 (by norm_num) _ h2
  · have h1 : calculateVariantPrice p (str "B") =
        jsRoundFrac (calculateRetailPrice p * 17) 25 := rfl
    have h2 : specConditionMultiplier (str "B") = (17 : ℚ) / 25 := by
      rw [show specConditionMultiplier (str "B") = (68 : ℚ) / 100 from rfl]
      norm_num
    rw [h1]
    exact key 17 25 (by norm_num) _ h2
  · have h1 : calculateVariantPrice p (str "C") =
        jsRoundFrac (calculateRetailPrice p * 33) 50 := rfl
    have h2 : specConditionMultiplier (str "C") = (33 : ℚ) / 50 := by
      rw [show specConditionMultiplier (str "C") = (66 : ℚ) / 100 from rfl]
      norm_num
    rw [h1]
    exact key 33 50 (by norm_num) _ h2
  · have h1 : calculateVariantPrice p (str "D") =
        jsRoundFrac (calculateRetailPrice p * 61) 100 := rfl
    have h2 : specConditionMultiplier (str "D") = (61 : ℚ) / 100 := by
      rw [show specConditionMultiplier (str "D") = (61 : ℚ) / 100 from rfl]
    rw [h1]
    exact key 61 100 (by norm_num) _ h2

/-- The concrete spec used by the C6 witness. -/
def sampleSpecB : ProductInfo :=
  { productType := str "MacBook Pro"
    displaySize := str "14\""
    processor := str "M2 Pro"
    storage := str "512GB"
    memory := str "16GB"
    year := str "2023"
    modelNumber := []
    category := str "Laptops"
    deviceFamily := str "Mac" }

/-- Witness for C6 at a concrete spec and grade. -/
theorem claim_C6_witness :
    ((str "B") = str "A" ∨ (str "B") = str "B" ∨ (str "B") = str "C" ∨ (str "B") = str "D") ∧
    (calculateVariantPrice sampleSpecB (str "B") =
      ⌊(calculateRetailPrice sampleSpecB : ℚ) * specConditionMultiplier (str "B") + 1 / 2⌋ ∧
     calculateComparePrice sampleSpecB (str "B") = calculateRetailPrice sampleSpecB) :=
  ⟨Or.inr (Or.inl rfl),
   claim_C6 sampleSpecB (str "B") (Or.inr (Or.inl rfl))⟩

/-! ## Claim C8: SEO title length bound -/

/-- C8: the generated SEO title never exceeds 60 characters, for every
spec, however long its fields are. -/
theorem truncate60_length (s : Str) : (truncate60 s).length ≤ 60 := by
  unfold truncate60
  split
  · have h3 : (str "...").length = 3 := rfl
    rw [List.length_append, h3]
    have h1 := List.length_take_le 57 s
    omega
  · next h => omega

theorem claim_C8 (p : ProductInfo) : (createAdvancedSEOTitle p).length ≤ 60 :=
  truncate60_length _

/-! ## Sample data for witnesses -/

/-- A classifiable sample row: a MacBook Pro unit in grade A. -/
def sampleRowA : Row :=
  { stockU := some (str "1001")
    stockL := none
    serialNumberU := some (str "SNA")
    serialL := none
    serialU := none
    model := some (str "MacBook Pro 14\" M2")
    subCategory := none
    category := some (str "Laptop")
    processor := some (str "Apple M2 chip 2022")
    brand := some (str "Apple")
    storage := some (str "512GB")
    memory := some (str "16GB")
    colorU := some (str "Space Gray")
    colorL := none
    conditionU := some (str "A")
    conditionL := none
    commentsU := none
    commentsL := none }

/-- A second unit of the same product in another variant. -/
def sampleRowB : Row :=
  { sampleRowA with
    stockU := some (str "1002")
    serialNumberU := some (str "SNB")
    colorU := some (str "Silver")
    conditionU := some (str "B") }

/-- A unit of the same product without a serial number. -/
def sampleRowNoSerial : Row :=
  { sampleRowA with
    stockU := some (str "1003")
    serialNumberU := none
    colorU := some (str "Gold") }

/-- The run timestamp used by the samples. -/
def sampleNow : Str := str "2024-01-01T00:00:00.000Z"

/-- The all-empty classification record (only used as a `headD` default). -/
def emptyInfo : ProductInfo :=
  { productType := [], displaySize := [], processor := [], storage := []
    memory := [], year := [], modelNumber := [], category := [], deviceFamily := [] }

/-- The product group built from the two classifiable sample rows. -/
def sampleGroup : ProductGroup :=
  (((createProductGroups [sampleRowA, sampleRowB] sampleNow (fun _ => [])).productGroups.map
    Prod.snd).headD (initGroup emptyInfo [] []))

/-- An existing remote variant matching the sample group's grade-A bucket,
with three units already in stock. -/
def sampleRemoteVariant : RemoteVariant :=
  { id := 5
    option1 := str "Space Gray"
    option2 := str "Grade A"
    option3 := str "English"
    inventory_quantity := some 3 }

/-- An existing remote product whose title matches the sample group's
generated title up to case. -/
def sampleRemote : RemoteProduct :=
  { id := 77
    title := str "REFURBISHED MACBOOK PRO 13\" M2 2022 512GB 16GB"
    variants := [sampleRemoteVariant] }

/-- The sample group's second payload variant (Space Gray / Grade A /
English after sorting). -/
def sampleNewVariant : ShopifyVariant :=
  (createAdvancedVariants sampleGroup).getD 1 (defaultVariant sampleGroup)

/-- A group with no stock items and no `totalUnits` field. -/
def emptyGroup : ProductGroup :=
  { productType := str "MacBook Pro"
    displaySize := str "14\""
    processor := str "M2"
    storage := str "512GB"
    memory := str "16GB"
    year := str "2022"
    modelNumber := []
    seoTitle := str "Refurbished MacBook Pro"
    seoDescription := []
    seoHandle := []
    productDescription := []
    basePrice := 2499
    retailPrice := 3599
    collections := []
    tags := []
    totalUnits := none
    variants := []
    stockItems := []
    shopifyProductId := none
    lastUpdated := [] }

/-! ## Claim C2: update inventory additivity -/

/-- C2: during an update, every payload variant whose option triple exactly
matches an existing remote variant is submitted with inventory
`Q + q` — the remote variant's existing quantity (0 when absent) plus the
local bucket's quantity — and that call is part of the submitted plan. -/
theorem claim_C2 (ep : RemoteProduct) (g : ProductGroup) (nv : ShopifyVariant)
    (ev : RemoteVariant) (h1 : nv ∈ createAdvancedVariants g)
    (h2 : findMatchingVariant ep.variants nv = some ev) :
    variantOpFor ep.variants nv =
      VariantOp.updateVariant ev.id
        (ev.inventory_quantity.getD 0 + (nv.inventory_quantity : ℤ))
        nv.price nv.compare_at_price nv.sku ∧
    VariantOp.updateVariant ev.id
        (ev.inventory_quantity.getD 0 + (nv.inventory_quantity : ℤ))
        nv.price nv.compare_at_price nv.sku ∈ updateExistingProductPlan ep g := by
  have hop : variantOpFor ep.variants nv =
      VariantOp.updateVariant ev.id
        (ev.inventory_quantity.getD 0 + (nv.inventory_quantity : ℤ))
        nv.price nv.compare_at_price nv.sku := by
    simp [variantOpFor, h2]
  refine ⟨hop, ?_⟩
  have hm := List.mem_map_of_mem (variantOpFor ep.variants) h1
  rw [hop] at hm
  exact hm

/-- Witness for C2: the sample remote variant holds 3 units, the sample
bucket 1, and the submitted inventory is 4. -/
theorem claim_C2_witness :
    variantOpFor sampleRemote.variants sampleNewVariant =
      VariantOp.updateVariant sampleRemoteVariant.id
        (sampleRemoteVariant.inventory_quantity.getD 0 +
          (sampleNewVariant.inventory_quantity : ℤ))
        sampleNewVariant.price sampleNewVariant.compare_at_price sampleNewVariant.sku ∧
    VariantOp.updateVariant sampleRemoteVariant.id
        (sampleRemoteVariant.inventory_quantity.getD 0 +
          (sampleNewVariant.inventory_quantity : ℤ))
        sampleNewVariant.price sampleNewVariant.compare_at_price sampleNewVariant.sku ∈
      updateExistingProductPlan sampleRemote sampleGroup :=
  claim_C2 sampleRemote sampleGroup sampleNewVariant sampleRemoteVariant
    (by decide) (by decide)

/-! ## Claim C3: duplicate avoidance -/

/-- C3: when some existing remote product's title equals the group's
generated title case-insensitively, the per-group sync step never issues a
create call (also when the update fails, in which case the error counter is
incremented and the group is not retried as a create); conversely a create
call is only issued when no exact title match exists. -/
theorem claim_C3 (eps : List RemoteProduct) (g : ProductGroup)
    (uo : Except Str UpdateResult) (co : Except Str CreateResult) :
    ((∃ p ∈ eps, jsToLower p.title = jsToLower g.seoTitle) →
        (∀ t, ApiCall.createProduct t ∉ (processGroupSync eps g uo co).calls) ∧
        (processGroupSync eps g uo co).created = 0 ∧
        (∀ msg, uo = .error msg →
          (processGroupSync eps g uo co).errors = 1 ∧
          (processGroupSync eps g uo co).updated = 0)) ∧
    (∀ t, ApiCall.createProduct t ∈ (processGroupSync eps g uo co).calls →
        ¬ ∃ p ∈ eps, jsToLower p.title = jsToLower g.seoTitle) := by
  cases hf : findExistingProductAdvanced eps g with
  | some ep =>
    constructor
    · intro _
      refine ⟨?_, ?_, ?_⟩
      · intro t
        cases uo <;> simp [processGroupSync, hf]
      · cases uo <;> simp [processGroupSync, hf]
      · intro msg hmsg
        subst hmsg
        simp [processGroupSync, hf]
    · intro t ht
      cases uo <;> simp [processGroupSync, hf] at ht
  | none =>
    have hf2 : eps.find? (fun product => jsToLower product.title == jsToLower g.seoTitle)
        = none := hf
    have hno : ∀ p ∈ eps, ¬ jsToLower p.title = jsToLower g.seoTitle := by
      intro p hp he
      have := List.find?_eq_none.mp hf2 p hp
      simp [he] at this
    constructor
    · rintro ⟨p, hp, he⟩
      exact absurd he (hno p hp)
    · rintro t ht ⟨p, hp, he⟩
      exact absurd he (hno p hp)

/-- Witness for C3 at the sample group and a matching remote product, with
a failing update outcome. -/
theorem claim_C3_witness :
    (∃ p ∈ [sampleRemote], jsToLower p.title = jsToLower sampleGroup.seoTitle) ∧
    (∀ t, ApiCall.createProduct t ∉
      (processGroupSync [sampleRemote] sampleGroup (.error (str "422"))
        (.ok ⟨0, 0⟩)).calls) ∧
    (processGroupSync [sampleRemote] sampleGroup (.error (str "422"))
        (.ok ⟨0, 0⟩)).errors = 1 :=
  ⟨⟨sampleRemote, by decide, by decide⟩,
   ((claim_C3 [sampleRemote] sampleGroup (.error (str "422")) (.ok ⟨0, 0⟩)).1
      ⟨sampleRemote, by decide, by decide⟩).1,
   (((claim_C3 [sampleRemote] sampleGroup (.error (str "422")) (.ok ⟨0, 0⟩)).1
      ⟨sampleRemote, by decide, by decide⟩).2.2 (str "422") rfl).1⟩

/-! ## Claim C10: default-variant fallback -/

theorem aggFold_nil (items : List StockItem)
    (h : ∀ si ∈ items, si.stockId = [] ∨ si.serialNumber = []) :
    items.foldl aggStep [] = [] := by
  induction items with
  | nil => rfl
  | cons si t ih =>
    have hs : aggStep [] si = [] := by
      rcases h si (List.mem_cons_self _ _) with h1 | h1 <;> simp [aggStep, h1]
    rw [List.foldl_cons, hs]
    exact ih (fun x hx => h x (List.mem_cons_of_mem _ hx))

/-- C10: `createAdvancedVariants` never returns an empty list, and when all
stock items are filtered out (or there are none) it returns exactly the
default variant — Space Gray / Grade A / English with inventory equal to
`totalUnits || 0`. -/
theorem claim_C10 (g : ProductGroup) :
    createAdvancedVariants g ≠ [] ∧
    ((∀ si ∈ g.stockItems, si.stockId = [] ∨ si.serialNumber = []) →
      createAdvancedVariants g = [defaultVariant g] ∧
      (defaultVariant g).option1 = str "Space Gray" ∧
      (defaultVariant g).option2 = str "Grade A" ∧
      (defaultVariant g).option3 = str "English" ∧
      (defaultVariant g).inventory_quantity = g.totalUnits.getD 0) := by
  constructor
  · simp only [createAdvancedVariants]
    split
    · simp
    · next h =>
      intro he
      rw [he] at h
      simp at h
  · intro h
    have hm : g.stockItems.foldl aggStep [] = [] := aggFold_nil _ h
    refine ⟨?_, rfl, rfl, rfl, rfl⟩
    simp [createAdvancedVariants, hm, sortBy]

/-- Witness for C10 at a group with no stock items and no `totalUnits`. -/
theorem claim_C10_witness :
    (∀ si ∈ emptyGroup.stockItems, si.stockId = [] ∨ si.serialNumber = []) ∧
    (createAdvancedVariants emptyGroup = [defaultVariant emptyGroup] ∧
      (defaultVariant emptyGroup).option1 = str "Space Gray" ∧
      (defaultVariant emptyGroup).option2 = str "Grade A" ∧
      (defaultVariant emptyGroup).option3 = str "English" ∧
      (defaultVariant emptyGroup).inventory_quantity = emptyGroup.totalUnits.getD 0) :=
  ⟨by simp [emptyGroup], (claim_C10 emptyGroup).2 (by simp [emptyGroup])⟩

/-! ## Claim C5: content-generator determinism -/

theorem randMergeFuel_fst_length {α : Type} :
    ∀ (fuel : Nat) (xs ys : List α) (bs : List Bool),
      (randMergeFuel fuel xs ys bs).1.length = xs.length + ys.length := by
  intro fuel
  induction fuel with
  | zero => intro xs ys bs; simp [randMergeFuel]
  | succ n ih =>
    intro xs ys bs
    match xs, ys with
    | [], ys => simp [randMergeFuel]
    | x :: xs, [] => simp [randMergeFuel]
    | x :: xs, y :: ys =>
      simp only [randMergeFuel]
      split <;> simp [ih] <;> omega

theorem randSortFuel_fst_length {α : Type} :
    ∀ (fuel : Nat) (l : List α) (bs : List Bool),
      (randSortFuel fuel l bs).1.length = l.length := by
  intro fuel
  induction fuel with
  | zero => intro l bs; rfl
  | succ n ih =>
    intro l bs
    match l with
    | [] => rfl
    | [x] => rfl
    | a :: b :: rest =>
      simp only [randSortFuel]
      rw [randMergeFuel_fst_length, ih, ih, ← List.length_append, List.take_append_drop]

theorem selectFAQs_length (kb : Str) (bits : List Bool) :
    (selectFAQs (faqPool kb) bits).length = 4 := by
  unfold selectFAQs randSort
  rw [List.length_take, randSortFuel_fst_length]
  rfl

set_option maxRecDepth 40000

/-- C5 counterexample: the product description is not a function of
(spec, variants) alone — two runs with different `Math.random` outcomes
produce different descriptions (the FAQ selection differs). -/
theorem claim_C5_counterexample :
    createAdvancedProductDescription sampleSpecB [] (List.replicate 30 true) ≠
      createAdvancedProductDescription sampleSpecB [] (List.replicate 30 false) := by
  intro h
  unfold createAdvancedProductDescription at h
  have h2 := List.append_cancel_left (List.append_cancel_right h)
  exact absurd h2 (by decide)

/-- C5 amended: for a fixed (spec, variants) input the description differs
between two evaluations at most in the FAQ block — the surrounding parts
are the same strings for every random-oracle outcome — and the FAQ block
always renders exactly 4 FAQs selected from the fixed pool. -/
theorem claim_C5_amended (p : ProductInfo) (v : List (Str × VariantBucket))
    (b b' : List Bool) :
    ∃ pre post : Str,
      createAdvancedProductDescription p v b =
        pre ++ renderFAQs (selectFAQs (faqPool (keyboardInfoOf v)) b) ++ post ∧
      createAdvancedProductDescription p v b' =
        pre ++ renderFAQs (selectFAQs (faqPool (keyboardInfoOf v)) b') ++ post ∧
      (selectFAQs (faqPool (keyboardInfoOf v)) b).length = 4 :=
  ⟨descPre p v, descPost p, rfl, rfl, selectFAQs_length _ b⟩

/-! ## Claim C9: handle well-formedness -/

/-- The character class of the claim: lowercase letters, digits, hyphen. -/
def isHandleChar (c : Char) : Bool :=
  ('a' ≤ c && c ≤ 'z') || isDigit09 c || c = '-'

/-- The spec used for the C9 counterexample: a product type long enough
that the 255-character truncation cuts immediately after a hyphen. -/
def longTypeInfo : ProductInfo :=
  { productType := List.replicate 242 'a' ++ ' ' :: List.replicate 20 'a'
    displaySize := [], processor := [], storage := [], memory := [], year := []
    modelNumber := [], category := [], deviceFamily := [] }

/-- C9 counterexample: for `longTypeInfo` the generated handle ends in a
hyphen (the final `substring(0, 255)` truncates right after one), refuting
the no-trailing-hyphen conjunct of the claim as stated. -/
theorem claim_C9_counterexample :
    (createSEOOptimizedHandle longTypeInfo).getLast? = some '-' ∧
    (createSEOOptimizedHandle longTypeInfo).length = 255 := by
  constructor <;> decide

theorem collapseRunsAux_all {p : Char → Bool} {r : Char} {q : Char → Bool}
    (hr : q r = true) :
    ∀ (s : Str) (b : Bool), (∀ c ∈ s, q c = true) →
      ∀ c ∈ collapseRunsAux p r b s, q c = true := by
  intro s
  induction s with
  | nil => intro b _ c hc; simp [collapseRunsAux] at hc
  | cons a t ih =>
    intro b hall c hc
    have hat : ∀ x ∈ t, q x = true := fun x hx => hall x (List.mem_cons_of_mem _ hx)
    by_cases hp : p a = true
    · cases b with
      | true =>
        simp only [collapseRunsAux, hp, if_pos, if_true] at hc
        exact ih true hat c hc
      | false =>
        simp only [collapseRunsAux, hp, if_pos, if_true, Bool.false_eq_true, if_false,
          List.mem_cons] at hc
        rcases hc with hc | hc
        · rw [hc]; exact hr
        · exact ih true hat c hc
    · have hp2 : p a = false := by simpa using hp
      simp only [collapseRunsAux, hp2, Bool.false_eq_true, if_false, List.mem_cons] at hc
      rcases hc with hc | hc
      · rw [hc]; exact hall a (List.mem_cons_self _ _)
      · exact ih false hat c hc

/-- The no-adjacent-hyphens relation. -/
def NoHH (a b : Char) : Prop := ¬(a = '-' ∧ b = '-')

theorem collapseRunsAux_chain (p : Char → Bool) (hp : p '-' = true) :
    ∀ (s : Str) (b : Bool),
      List.Chain' NoHH (collapseRunsAux p '-' b s) ∧
      (b = true → (collapseRunsAux p '-' b s).head? ≠ some '-') := by
  intro s
  induction s with
  | nil => intro b; constructor <;> simp [collapseRunsAux]
  | cons a t ih =>
    intro b
    by_cases hpa : p a = true
    · cases b with
      | true =>
        show List.Chain' NoHH (collapseRunsAux p '-' true (a :: t)) ∧ _
        have he : collapseRunsAux p '-' true (a :: t) = collapseRunsAux p '-' true t := by
          simp [collapseRunsAux, hpa]
        rw [he]
        exact ⟨(ih true).1, fun _ => (ih true).2 rfl⟩
      | false =>
        have he : collapseRunsAux p '-' false (a :: t) =
            '-' :: collapseRunsAux p '-' true t := by
          simp [collapseRunsAux, hpa]
        rw [he]
        refine ⟨?_, fun hcon => by simp at hcon⟩
        rw [List.chain'_cons']
        refine ⟨?_, (ih true).1⟩
        intro y hy hno
        have h1 := (ih true).2 rfl
        rw [hno.2] at hy
        exact h1 (Option.mem_def.mp hy)
    · have hpa2 : p a = false := by simpa using hpa
      have hane : a ≠ '-' := fun he => by
        rw [he] at hpa2
        rw [hpa2] at hp
        exact Bool.false_ne_true hp
      have he : collapseRunsAux p '-' b (a :: t) = a :: collapseRunsAux p '-' false t := by
        simp [collapseRunsAux, hpa2]
      rw [he]
      constructor
      · rw [List.chain'_cons']
        refine ⟨?_, (ih false).1⟩
        intro y _ hno
        exact hane hno.1
      · intro _
        simp [hane]

theorem stripLeadingHyphen_cases (l : Str) :
    (stripLeadingHyphen l = l ∧ l.head? ≠ some '-') ∨
    ∃ t, l = '-' :: t ∧ stripLeadingHyphen l = t := by
  cases l with
  | nil => left; exact ⟨rfl, by simp⟩
  | cons c t =>
    by_cases hc : c = '-'
    · subst hc
      right
      exact ⟨t, rfl, by simp [stripLeadingHyphen]⟩
    · left
      refine ⟨by simp [stripLeadingHyphen, hc], ?_⟩
      simp [hc]

theorem stripLeadingHyphen_subset (l : Str) :
    ∀ c ∈ stripLeadingHyphen l, c ∈ l := by
  rcases stripLeadingHyphen_cases l with ⟨he, _⟩ | ⟨t, h1, h2⟩
  · rw [he]; exact fun c hc => hc
  · intro c hc
    rw [h2] at hc
    rw [h1]
    exact List.mem_cons_of_mem _ hc

theorem stripLeadingHyphen_chain {l : Str} (h : List.Chain' NoHH l) :
    List.Chain' NoHH (stripLeadingHyphen l) := by
  rcases stripLeadingHyphen_cases l with ⟨he, _⟩ | ⟨t, h1, h2⟩
  · rw [he]; exact h
  · rw [h2]; rw [h1] at h; exact h.tail

theorem stripLeadingHyphen_head {l : Str} (h : List.Chain' NoHH l) :
    (stripLeadingHyphen l).head? ≠ some '-' := by
  rcases stripLeadingHyphen_cases l with ⟨he, hh⟩ | ⟨t, h1, h2⟩
  · rw [he]; exact hh
  · rw [h2]
    rw [h1, List.chain'_cons'] at h
    intro hc
    exact h.1 '-' hc ⟨rfl, rfl⟩

theorem noHH_flip {a b : Char} (h : NoHH a b) : NoHH b a :=
  fun hc => h ⟨hc.2, hc.1⟩

theorem chain_reverse_noHH {l : Str} (h : List.Chain' NoHH l) :
    List.Chain' NoHH l.reverse := by
  rw [List.chain'_reverse]
  exact List.Chain'.imp (fun a b hab => noHH_flip hab) h

theorem stripTrailingHyphen_subset (l : Str) :
    ∀ c ∈ stripTrailingHyphen l, c ∈ l := by
  intro c hc
  simp only [stripTrailingHyphen, List.mem_reverse] at hc
  exact List.mem_reverse.mp (stripLeadingHyphen_subset _ c hc)

theorem stripTrailingHyphen_chain {l : Str} (h : List.Chain' NoHH l) :
    List.Chain' NoHH (stripTrailingHyphen l) := by
  simp only [stripTrailingHyphen]
  exact chain_reverse_noHH (stripLeadingHyphen_chain (chain_reverse_noHH h))

theorem stripTrailingHyphen_getLast {l : Str} (h : List.Chain' NoHH l) :
    (stripTrailingHyphen l).getLast? ≠ some '-' := by
  rw [List.getLast?_eq_head?_reverse]
  simp only [stripTrailingHyphen, List.reverse_reverse]
  exact stripLeadingHyphen_head (chain_reverse_noHH h)

theorem stripTrailingHyphen_head {l : Str} (h : l.head? ≠ some '-') :
    (stripTrailingHyphen l).head? ≠ some '-' := by
  simp only [stripTrailingHyphen]
  rcases stripLeadingHyphen_cases l.reverse with ⟨he, _⟩ | ⟨t, h1, h2⟩
  · rw [he, List.reverse_reverse]; exact h
  · rw [h2]
    have hl : l = t.reverse ++ ['-'] := by
      rw [← List.reverse_reverse l, h1, List.reverse_cons]
    cases ht : t.reverse with
    | nil => simp
    | cons x xs =>
      rw [hl, ht, List.cons_append] at h
      simpa using h

theorem handlePipeline_props (w : Str) :
    ∀ sanitised collapsed result : Str,
      sanitised = w.filter (fun c => ('a' ≤ c && c ≤ 'z') || isDigit09 c || c = '-') →
      collapsed = collapseRuns (· = '-') '-' sanitised →
      result = stripTrailingHyphen (stripLeadingHyphen collapsed) →
      ((∀ c ∈ result, isHandleChar c = true) ∧ List.Chain' NoHH result ∧
       result.head? ≠ some '-' ∧ result.getLast? ≠ some '-') := by
  intro sanitised collapsed result hs hc hr
  have hall : ∀ c ∈ sanitised, isHandleChar c = true := by
    intro c hcm
    rw [hs] at hcm
    exact (List.mem_filter.mp hcm).2
  have hallc : ∀ c ∈ collapsed, isHandleChar c = true := by
    rw [hc]
    exact collapseRunsAux_all (by decide) sanitised false hall
  have hch : List.Chain' NoHH collapsed := by
    rw [hc]
    exact (collapseRunsAux_chain _ (by decide) sanitised false).1
  have hchainSL : List.Chain' NoHH (stripLeadingHyphen collapsed) :=
    stripLeadingHyphen_chain hch
  refine ⟨?_, ?_, ?_, ?_⟩
  · intro c hm
    rw [hr] at hm
    exact hallc c (stripLeadingHyphen_subset _ c (stripTrailingHyphen_subset _ c hm))
  · rw [hr]; exact stripTrailingHyphen_chain hchainSL
  · rw [hr]; exact stripTrailingHyphen_head (stripLeadingHyphen_head hch)
  · rw [hr]; exact stripTrailingHyphen_getLast hchainSL

/-- C9 (amended): for every spec the generated URL handle consists only of
lowercase letters, digits and hyphens, contains no adjacent hyphens, does
not start with a hyphen, and is at most 255 characters long; and whenever
the pre-truncation handle already fits in 255 characters (no truncation
occurs) it does not end with a hyphen either.  The unconditional
no-trailing-hyphen statement of the claim fails only through the final
`substring(0, 255)`, as the counterexample shows. -/
theorem claim_C9_amended (p : ProductInfo) :
    (∀ c ∈ createSEOOptimizedHandle p, isHandleChar c = true) ∧
    List.Chain' NoHH (createSEOOptimizedHandle p) ∧
    (createSEOOptimizedHandle p).head? ≠ some '-' ∧
    (createSEOOptimizedHandle p).length ≤ 255 ∧
    ((handleBeforeTruncation p).length ≤ 255 →
      (createSEOOptimizedHandle p).getLast? ≠ some '-') := by
  obtain ⟨h1, h2, h3, h4⟩ := handlePipeline_props
    (joinSep (str "-") (filterTruthy
      [str "refurbished",
       collapseRuns jsIsWs '-' (jsToLower p.productType),
       p.displaySize.filter (fun c => isDigit09 c || c = '.'),
       collapseRuns jsIsWs '-' (removeWsChip (removeAppleWs (jsToLower p.processor))),
       p.year, jsToLower p.storage, jsToLower p.memory]))
    _ _ (handleBeforeTruncation p) rfl rfl rfl
  have htake : createSEOOptimizedHandle p = (handleBeforeTruncation p).take 255 := rfl
  refine ⟨?_, ?_, ?_, ?_, ?_⟩
  · intro c hm
    rw [htake] at hm
    exact h1 c (List.take_subset _ _ hm)
  · rw [htake]; exact h2.take 255
  · rw [htake, List.head?_take, if_neg (by norm_num : ¬(255 = 0))]
    exact h3
  · rw [htake]; exact List.length_take_le _ _
  · intro hle
    rw [htake, List.take_of_length_le hle]
    exact h4

/-- Witness for C9 (amended) at a concrete spec where no truncation
occurs: the handle really has no trailing hyphen. -/
theorem claim_C9_witness :
    (handleBeforeTruncation sampleSpecB).length ≤ 255 ∧
    (createSEOOptimizedHandle sampleSpecB).getLast? ≠ some '-' :=
  ⟨by decide, (claim_C9_amended sampleSpecB).2.2.2.2 (by decide)⟩

/-! ## Claim C1: conservation of units -/

/-- The conservation invariant of one product group: the bucket quantities
sum to the stock-item count, which is what `totalUnits` records. -/
def groupInv (g : ProductGroup) : Prop :=
  ((g.variants.map (fun kv => kv.2.quantity)).sum) = g.stockItems.length ∧
  g.totalUnits = some g.stockItems.length

theorem groupInv_initGroup (info : ProductInfo) (now : Str) (bits : List Bool) :
    groupInv (initGroup info now bits) :=
  ⟨rfl, rfl⟩

theorem qsum_updFirst_bump (k : Str) (it : StockItem) :
    ∀ vs : List (Str × VariantBucket), hasKeyA vs k = true →
      ((updFirst k (fun b => { b with
          stockItems := b.stockItems ++ [it], quantity := b.quantity + 1 }) vs).map
        (fun kv => kv.2.quantity)).sum
        = ((vs.map (fun kv => kv.2.quantity)).sum) + 1 := by
  intro vs
  induction vs with
  | nil => intro h; rw [hasKeyA_nil] at h; exact absurd h (by simp)
  | cons p t ih =>
    intro h
    rw [updFirst_cons]
    by_cases hp : p.1 = k
    · rw [if_pos hp]
      have hq : ({ p.2 with
          stockItems := p.2.stockItems ++ [it]
          quantity := p.2.quantity + 1 } : VariantBucket).quantity = p.2.quantity + 1 := rfl
      simp only [List.map_cons, List.sum_cons, hq]
      omega
    · rw [if_neg hp]
      rw [hasKeyA_cons] at h
      have h2 : hasKeyA t k = true := by simpa [hp] using h
      simp only [List.map_cons, List.sum_cons, ih h2]
      omega

theorem hasKeyA_append_self2 {α : Type} (m : List (Str × α)) (k : Str) (x : α) :
    hasKeyA (m ++ [(k, x)]) k = true := by
  induction m with
  | nil => simp [hasKeyA_cons, hasKeyA_nil]
  | cons p t ih =>
    rw [List.cons_append, hasKeyA_cons, ih, Bool.or_true]

theorem qsum_ensure_bump (k : Str) (it : StockItem) (b0 : VariantBucket)
    (hb0 : b0.quantity = 0) (vs : List (Str × VariantBucket)) :
    ((updFirst k (fun b => { b with
        stockItems := b.stockItems ++ [it], quantity := b.quantity + 1 })
      (if hasKeyA vs k then vs else vs ++ [(k, b0)])).map
        (fun kv => kv.2.quantity)).sum
      = ((vs.map (fun kv => kv.2.quantity)).sum) + 1 := by
  by_cases hk : hasKeyA vs k = true
  · rw [if_pos hk, qsum_updFirst_bump k it vs hk]
  · rw [if_neg hk, qsum_updFirst_bump k it _ (hasKeyA_append_self2 vs k b0)]
    simp [hb0]

theorem addItemToGroup_variants (info : ProductInfo) (vk c cond kb : Str)
    (it : StockItem) (g : ProductGroup) :
    (addItemToGroup info vk c cond kb it g).variants =
      updFirst vk (fun b => { b with
        stockItems := b.stockItems ++ [it], quantity := b.quantity + 1 })
        (if hasKeyA g.variants vk then g.variants
         else g.variants ++ [(vk, initBucket info c cond kb)]) := rfl

theorem addItemToGroup_stockItems (info : ProductInfo) (vk c cond kb : Str)
    (it : StockItem) (g : ProductGroup) :
    (addItemToGroup info vk c cond kb it g).stockItems = g.stockItems ++ [it] := rfl

theorem addItemToGroup_totalUnits (info : ProductInfo) (vk c cond kb : Str)
    (it : StockItem) (g : ProductGroup) :
    (addItemToGroup info vk c cond kb it g).totalUnits = g.totalUnits.map (· + 1) := rfl

theorem groupInv_addItem (info : ProductInfo) (vk c cond kb : Str)
    (it : StockItem) (g : ProductGroup) (h : groupInv g) :
    groupInv (addItemToGroup info vk c cond kb it g) := by
  obtain ⟨h1, h2⟩ := h
  constructor
  · rw [addItemToGroup_variants, addItemToGroup_stockItems,
        qsum_ensure_bump vk it (initBucket info c cond kb) rfl g.variants, h1]
    simp
  · rw [addItemToGroup_totalUnits, addItemToGroup_stockItems, h2]
    simp

theorem processItem_none (now : Str) (rbits : Str → List Bool) (st : GroupsAcc)
    (item : Row) (h : analyzeProductAdvanced item = none) :
    processItem now rbits st item = st := by
  unfold processItem
  rw [h]

theorem processItem_groups_some (now : Str) (rbits : Str → List Bool) (st : GroupsAcc)
    (item : Row) (info : ProductInfo) (h : analyzeProductAdvanced item = some info) :
    (processItem now rbits st item).groups =
      updFirst (createAdvancedGroupingKey info)
        (addItemToGroup info
          (variantKeyOf (rowStockItem now item).color (rowStockItem now item).condition
            (rowStockItem now item).keyboardLayout)
          (rowStockItem now item).color (rowStockItem now item).condition
          (rowStockItem now item).keyboardLayout (rowStockItem now item))
        (if hasKeyA st.groups (createAdvancedGroupingKey info) then st.groups
         else st.groups ++ [(createAdvancedGroupingKey info,
            initGroup info now (rbits (createAdvancedGroupingKey info)))]) := by
  unfold processItem
  rw [h]

/-- The invariant over the whole accumulating group map. -/
def groupsInv (gs : List (Str × ProductGroup)) : Prop := ∀ kg ∈ gs, groupInv kg.2

theorem groupsInv_processItem (now : Str) (rbits : Str → List Bool) (st : GroupsAcc)
    (item : Row) (h : groupsInv st.groups) :
    groupsInv (processItem now rbits st item).groups := by
  cases hai : analyzeProductAdvanced item with
  | none => rw [processItem_none now rbits st item hai]; exact h
  | some info =>
    rw [processItem_groups_some now rbits st item info hai]
    intro kg hm
    have hg1 : groupsInv (if hasKeyA st.groups (createAdvancedGroupingKey info)
        then st.groups
        else st.groups ++ [(createAdvancedGroupingKey info,
          initGroup info now (rbits (createAdvancedGroupingKey info)))]) := by
      by_cases hk : hasKeyA st.groups (createAdvancedGroupingKey info) = true
      · rw [if_pos hk]; exact h
      · rw [if_neg hk]
        intro kg2 hm2
        rcases List.mem_append.mp hm2 with hm2 | hm2
        · exact h kg2 hm2
        · have he2 : kg2 = (createAdvancedGroupingKey info,
              initGroup info now (rbits (createAdvancedGroupingKey info))) := by
            simpa using hm2
          rw [he2]
          exact groupInv_initGroup _ _ _
    rcases mem_updFirst _ _ _ kg hm with hmem | ⟨kg2, hmem2, he⟩
    · exact hg1 kg hmem
    · rw [he]
      exact groupInv_addItem _ _ _ _ _ _ _ (hg1 kg2 hmem2)

theorem groupsInv_fold (now : Str) (rbits : Str → List Bool) :
    ∀ (rows : List Row) (st : GroupsAcc), groupsInv st.groups →
      groupsInv (rows.foldl (processItem now rbits) st).groups := by
  intro rows
  induction rows with
  | nil => intro st h; exact h
  | cons r t ih => intro st h; exact ih _ (groupsInv_processItem now rbits st r h)

/-- C1: in every product group produced by `createProductGroups`, the sum
of the variant buckets' quantities equals the number of stock items, and
`totalUnits` records exactly that number. -/
theorem claim_C1 (rows : List Row) (now : Str) (rbits : Str → List Bool) :
    ∀ kg ∈ (createProductGroups rows now rbits).productGroups,
      ((kg.2.variants.map (fun kv => kv.2.quantity)).sum) = kg.2.stockItems.length ∧
      kg.2.totalUnits = some kg.2.stockItems.length := by
  intro kg hm
  have hfold := groupsInv_fold now rbits rows ⟨[], []⟩ (by intro kg2 hm2; simp at hm2)
  have he : (createProductGroups rows now rbits).productGroups =
      (rows.foldl (processItem now rbits) ⟨[], []⟩).groups.map (fun kq =>
        (kq.1, { kq.2 with
          seoDescription := createAdvancedSEODescription (rebuildInfo kq.2) kq.2.variants
          productDescription := createAdvancedProductDescription (rebuildInfo kq.2)
            kq.2.variants (rbits kq.1) })) := rfl
  rw [he] at hm
  rcases List.mem_map.mp hm with ⟨kg2, hm2, hkg⟩
  have hinv := hfold kg2 hm2
  rw [← hkg]
  exact ⟨hinv.1, hinv.2⟩

/-- The one group of a concrete two-row run, with its key. -/
def sampleKG : Str × ProductGroup :=
  ((createProductGroups [sampleRowA, sampleRowB] sampleNow
      (fun _ => [])).productGroups).headD (str "x", initGroup emptyInfo [] [])

/-- Witness for C1 on a concrete two-row run. -/
theorem claim_C1_witness :
    ((sampleKG.2.variants.map (fun kv => kv.2.quantity)).sum)
        = sampleKG.2.stockItems.length ∧
    sampleKG.2.totalUnits = some sampleKG.2.stockItems.length :=
  claim_C1 [sampleRowA, sampleRowB] sampleNow (fun _ => []) sampleKG
    (List.mem_of_mem_head? rfl)

/-! ## Claim C7: grouping is order-insensitive -/

/-- The group key a row maps to (`none` when the classifier rejects it). -/
def rowGroupKey (item : Row) : Option Str :=
  (analyzeProductAdvanced item).map createAdvancedGroupingKey

/-- The variant-bucket key a row maps to. -/
def rowVariantKey (now : Str) (item : Row) : Str :=
  variantKeyOf (rowStockItem now item).color (rowStockItem now item).condition
    (rowStockItem now item).keyboardLayout

theorem processItem_lookup_none (now : Str) (rbits : Str → List Bool)
    (st : GroupsAcc) (item : Row) (gk : Str)
    (h : analyzeProductAdvanced item = none) :
    lookupA (processItem now rbits st item).groups gk = lookupA st.groups gk := by
  rw [processItem_none now rbits st item h]

theorem processItem_lookup_other (now : Str) (rbits : Str → List Bool)
    (st : GroupsAcc) (item : Row) (gk : Str) (info : ProductInfo)
    (h : analyzeProductAdvanced item = some info)
    (hne : createAdvancedGroupingKey info ≠ gk) :
    lookupA (processItem now rbits st item).groups gk = lookupA st.groups gk := by
  rw [processItem_groups_some now rbits st item info h,
      lookupA_updFirst_ne _ _ _ _ hne]
  by_cases hk : hasKeyA st.groups (createAdvancedGroupingKey info) = true
  · rw [if_pos hk]
  · rw [if_neg hk, lookupA_append_ne _ _ _ _ hne]

theorem processItem_lookup_match (now : Str) (rbits : Str → List Bool)
    (st : GroupsAcc) (item : Row) (gk : Str) (info : ProductInfo)
    (h : analyzeProductAdvanced item = some info)
    (heq : createAdvancedGroupingKey info = gk) :
    lookupA (processItem now rbits st item).groups gk =
      some (addItemToGroup info (rowVariantKey now item)
        (rowStockItem now item).color (rowStockItem now item).condition
        (rowStockItem now item).keyboardLayout (rowStockItem now item)
        ((lookupA st.groups gk).getD (initGroup info now (rbits gk)))) := by
  subst heq
  rw [processItem_groups_some now rbits st item info h, lookupA_updFirst]
  by_cases hk : hasKeyA st.groups (createAdvancedGroupingKey info) = true
  · rw [if_pos hk]
    rcases Option.isSome_iff_exists.mp ((hasKeyA_iff_lookupA _ _).mp hk) with ⟨g, hg⟩
    rw [hg]
    rfl
  · have hnone : lookupA st.groups (createAdvancedGroupingKey info) = none := by
      cases h2 : lookupA st.groups (createAdvancedGroupingKey info) with
      | none => rfl
      | some g => exact absurd ((hasKeyA_iff_lookupA _ _).mpr (by rw [h2]; rfl)) hk
    rw [if_neg hk, lookupA_append_self _ _ _ hnone, hnone]
    rfl

theorem addItem_bucket_lookup (info : ProductInfo) (vk0 c cond kb : Str)
    (it : StockItem) (g : ProductGroup) (vk : Str) :
    lookupA (addItemToGroup info vk0 c cond kb it g).variants vk =
      if vk0 = vk then
        some { ((lookupA g.variants vk).getD (initBucket info c cond kb)) with
          stockItems :=
            ((lookupA g.variants vk).getD (initBucket info c cond kb)).stockItems ++ [it]
          quantity :=
            ((lookupA g.variants vk).getD (initBucket info c cond kb)).quantity + 1 }
      else lookupA g.variants vk := by
  rw [addItemToGroup_variants]
  by_cases he : vk0 = vk
  · subst he
    rw [if_pos rfl, lookupA_updFirst]
    by_cases hk : hasKeyA g.variants vk0 = true
    · rw [if_pos hk]
      rcases Option.isSome_iff_exists.mp ((hasKeyA_iff_lookupA _ _).mp hk) with ⟨b, hb⟩
      rw [hb]
      rfl
    · have hnone : lookupA g.variants vk0 = none := by
        cases h2 : lookupA g.variants vk0 with
        | none => rfl
        | some b => exact absurd ((hasKeyA_iff_lookupA _ _).mpr (by rw [h2]; rfl)) hk
      rw [if_neg hk, lookupA_append_self _ _ _ hnone, hnone]
      rfl
  · rw [if_neg he, lookupA_updFirst_ne _ _ _ _ he]
    by_cases hk : hasKeyA g.variants vk0 = true
    · rw [if_pos hk]
    · rw [if_neg hk, lookupA_append_ne _ _ _ _ he]

/-- What the fold contributes to one group's stock-item list: `none` when
the group never comes into being. -/
def groupItemsView : Option (List StockItem) → List StockItem → Option (List StockItem)
  | some s, its => some (s ++ its)
  | none, its => if its.isEmpty then none else some its

theorem groupItemsView_step (base : Option (List StockItem)) (it : StockItem)
    (its : List StockItem) :
    groupItemsView base (it :: its) =
      groupItemsView (some ((base.getD []) ++ [it])) its := by
  cases base with
  | some s => simp [groupItemsView, List.append_assoc]
  | none => simp [groupItemsView]

/-- What the fold contributes to one bucket's (quantity, stock items). -/
def bucketView :
    Option (Nat × List StockItem) → List StockItem → Option (Nat × List StockItem)
  | some qs, its => some (qs.1 + its.length, qs.2 ++ its)
  | none, its => if its.isEmpty then none else some (its.length, its)

theorem bucketView_step (base : Option (Nat × List StockItem)) (it : StockItem)
    (its : List StockItem) :
    bucketView base (it :: its) =
      bucketView (some ((base.getD (0, [])).1 + 1, (base.getD (0, [])).2 ++ [it])) its := by
  cases base with
  | some qs =>
    simp [bucketView, List.append_assoc]
    omega
  | none =>
    simp [bucketView]
    omega

theorem groupItems_step (now : Str) (rbits : Str → List Bool) (st : GroupsAcc)
    (r : Row) (gk : Str) :
    ((lookupA (processItem now rbits st r).groups gk).map (fun g => g.stockItems)) =
      if decide (rowGroupKey r = some gk) then
        some ((((lookupA st.groups gk).map (fun g => g.stockItems)).getD [])
          ++ [rowStockItem now r])
      else ((lookupA st.groups gk).map (fun g => g.stockItems)) := by
  cases hai : analyzeProductAdvanced r with
  | none =>
    have hk : rowGroupKey r = none := by simp [rowGroupKey, hai]
    rw [if_neg (by simp [hk]), processItem_lookup_none now rbits st r gk hai]
  | some info =>
    have hk : rowGroupKey r = some (createAdvancedGroupingKey info) := by
      simp [rowGroupKey, hai]
    by_cases hgk : createAdvancedGroupingKey info = gk
    · rw [if_pos (by simp [hk, hgk]),
          processItem_lookup_match now rbits st r gk info hai hgk,
          Option.map_some', addItemToGroup_stockItems]
      cases lookupA st.groups gk with
      | none => rfl
      | some g => rfl
    · rw [if_neg (by simp [hk, hgk]),
          processItem_lookup_other now rbits st r gk info hai hgk]

theorem bucket_step (now : Str) (rbits : Str → List Bool) (st : GroupsAcc)
    (r : Row) (gk vk : Str) :
    (((lookupA (processItem now rbits st r).groups gk).bind
        (fun g => lookupA g.variants vk)).map (fun b => (b.quantity, b.stockItems))) =
      if decide (rowGroupKey r = some gk) && decide (rowVariantKey now r = vk) then
        some (((((lookupA st.groups gk).bind (fun g => lookupA g.variants vk)).map
            (fun b => (b.quantity, b.stockItems))).getD (0, [])).1 + 1,
          ((((lookupA st.groups gk).bind (fun g => lookupA g.variants vk)).map
            (fun b => (b.quantity, b.stockItems))).getD (0, [])).2 ++ [rowStockItem now r])
      else (((lookupA st.groups gk).bind (fun g => lookupA g.variants vk)).map
        (fun b => (b.quantity, b.stockItems))) := by
  cases hai : analyzeProductAdvanced r with
  | none =>
    have hk : rowGroupKey r = none := by simp [rowGroupKey, hai]
    rw [if_neg (by simp [hk]), processItem_lookup_none now rbits st r gk hai]
  | some info =>
    have hk : rowGroupKey r = some (createAdvancedGroupingKey info) := by
      simp [rowGroupKey, hai]
    by_cases hgk : createAdvancedGroupingKey info = gk
    · rw [processItem_lookup_match now rbits st r gk info hai hgk]
      simp only [Option.some_bind]
      rw [addItem_bucket_lookup]
      by_cases hvk : rowVariantKey now r = vk
      · rw [if_pos hvk, if_pos (by simp [hk, hgk, hvk]), Option.map_some']
        cases lookupA st.groups gk with
        | none => rfl
        | some g =>
          simp only [Option.getD_some, Option.some_bind]
          cases lookupA g.variants vk with
          | none => rfl
          | some b => rfl
      · rw [if_neg hvk, if_neg (by simp [hvk])]
        cases lookupA st.groups gk with
        | none => rfl
        | some g =>
          simp only [Option.getD_some, Option.some_bind]
    · rw [if_neg (by simp [hk, hgk]),
          processItem_lookup_other now rbits st r gk info hai hgk]

theorem fold_group_items (now : Str) (rbits : Str → List Bool) (gk : Str) :
    ∀ (rows : List Row) (st : GroupsAcc),
      ((lookupA (rows.foldl (processItem now rbits) st).groups gk).map
          (fun g => g.stockItems))
        = groupItemsView ((lookupA st.groups gk).map (fun g => g.stockItems))
            ((rows.filter (fun r => decide (rowGroupKey r = some gk))).map
              (rowStockItem now)) := by
  intro rows
  induction rows with
  | nil =>
    intro st
    rw [List.foldl_nil]
    cases (lookupA st.groups gk).map (fun g => g.stockItems) with
    | none => rfl
    | some s => simp [groupItemsView]
  | cons r t ih =>
    intro st
    rw [List.foldl_cons, ih (processItem now rbits st r), groupItems_step,
        List.filter_cons]
    by_cases hc : decide (rowGroupKey r = some gk) = true
    · rw [if_pos hc, if_pos hc, List.map_cons, groupItemsView_step]
    · rw [if_neg hc, if_neg hc]

theorem fold_bucket (now : Str) (rbits : Str → List Bool) (gk vk : Str) :
    ∀ (rows : List Row) (st : GroupsAcc),
      (((lookupA (rows.foldl (processItem now rbits) st).groups gk).bind
          (fun g => lookupA g.variants vk)).map (fun b => (b.quantity, b.stockItems)))
        = bucketView
            (((lookupA st.groups gk).bind (fun g => lookupA g.variants vk)).map
              (fun b => (b.quantity, b.stockItems)))
            ((rows.filter (fun r => decide (rowGroupKey r = some gk)
                && decide (rowVariantKey now r = vk))).map (rowStockItem now)) := by
  intro rows
  induction rows with
  | nil =>
    intro st
    rw [List.foldl_nil]
    cases ((lookupA st.groups gk).bind (fun g => lookupA g.variants vk)).map
        (fun b => (b.quantity, b.stockItems)) with
    | none => rfl
    | some qs => simp [bucketView]
  | cons r t ih =>
    intro st
    rw [List.foldl_cons, ih (processItem now rbits st r), bucket_step,
        List.filter_cons]
    by_cases hc : (decide (rowGroupKey r = some gk)
        && decide (rowVariantKey now r = vk)) = true
    · rw [if_pos hc, if_pos hc, List.map_cons, bucketView_step]
    · rw [if_neg hc, if_neg hc]

theorem lookupA_descMap (rbits : Str → List Bool) (gs : List (Str × ProductGroup))
    (gk : Str) :
    lookupA (gs.map (fun kq => (kq.1, { kq.2 with
        seoDescription := createAdvancedSEODescription (rebuildInfo kq.2) kq.2.variants
        productDescription := createAdvancedProductDescription (rebuildInfo kq.2)
          kq.2.variants (rbits kq.1) }))) gk
      = (lookupA gs gk).map (fun g => { g with
          seoDescription := createAdvancedSEODescription (rebuildInfo g) g.variants
          productDescription := createAdvancedProductDescription (rebuildInfo g)
            g.variants (rbits gk) }) := by
  induction gs with
  | nil => rfl
  | cons p t ih =>
    rw [List.map_cons, lookupA_cons, lookupA_cons]
    by_cases hp : p.1 = gk
    · rw [if_pos hp, if_pos hp, Option.map_some', hp]
    · rw [if_neg hp, if_neg hp, ih]

theorem perm_isEmpty {α : Type} {l1 l2 : List α} (h : l1.Perm l2) :
    l1.isEmpty = l2.isEmpty := by
  have hl := h.length_eq
  cases l1 <;> cases l2 <;> simp_all

theorem isSome_items (o : Option ProductGroup) :
    o.isSome = (o.map (fun g => g.stockItems)).isSome := (Option.isSome_map').symm

theorem isSome_bucket (o : Option VariantBucket) :
    o.isSome = (o.map (fun b => (b.quantity, b.stockItems))).isSome :=
  (Option.isSome_map').symm

theorem groupItemsView_none_isSome (its : List StockItem) :
    (groupItemsView none its).isSome = !its.isEmpty := by
  cases its with
  | nil => rfl
  | cons a t => rfl

theorem bucketView_none_isSome (its : List StockItem) :
    (bucketView none its).isSome = !its.isEmpty := by
  cases its with
  | nil => rfl
  | cons a t => rfl

theorem groupItemsView_none_eq (its s : List StockItem)
    (h : groupItemsView none its = some s) : s = its := by
  cases its with
  | nil => exact Option.noConfusion h
  | cons a t =>
    have h2 : some (a :: t) = some s := h
    exact (Option.some_inj.mp h2).symm

theorem bucketView_none_eq (its : List StockItem) (qs : Nat × List StockItem)
    (h : bucketView none its = some qs) : qs = (its.length, its) := by
  cases its with
  | nil => exact Option.noConfusion h
  | cons a t =>
    have h2 : some ((a :: t).length, a :: t) = some qs := h
    exact (Option.some_inj.mp h2).symm

/-- C7: grouping is order-insensitive — for any two permutations of the same
rows, the product-group maps returned by `createProductGroups` have the same
group keys, and per key the same `totalUnits`, the same stock items up to
permutation, the same variant-bucket keys, and per bucket the same quantity
and the same member stock items up to permutation. -/
theorem claim_C7 (rows1 rows2 : List Row) (now : Str)
    (rbits1 rbits2 : Str → List Bool) (hperm : rows1.Perm rows2) (gk : Str) :
    ((lookupA (createProductGroups rows1 now rbits1).productGroups gk).isSome
      = (lookupA (createProductGroups rows2 now rbits2).productGroups gk).isSome) ∧
    (∀ g1 g2,
      lookupA (createProductGroups rows1 now rbits1).productGroups gk = some g1 →
      lookupA (createProductGroups rows2 now rbits2).productGroups gk = some g2 →
      g1.totalUnits = g2.totalUnits ∧
      g1.stockItems.Perm g2.stockItems ∧
      ∀ vk : Str,
        ((lookupA g1.variants vk).isSome = (lookupA g2.variants vk).isSome) ∧
        ∀ b1 b2, lookupA g1.variants vk = some b1 → lookupA g2.variants vk = some b2 →
          b1.quantity = b2.quantity ∧ b1.stockItems.Perm b2.stockItems) := by
  have hits : ((rows1.filter (fun r => decide (rowGroupKey r = some gk))).map
        (rowStockItem now)).Perm
      ((rows2.filter (fun r => decide (rowGroupKey r = some gk))).map
        (rowStockItem now)) :=
    List.Perm.map _ (List.Perm.filter _ hperm)
  have h1 : (lookupA (rows1.foldl (processItem now rbits1) ⟨[], []⟩).groups gk).map
        (fun g => g.stockItems)
      = groupItemsView none
          ((rows1.filter (fun r => decide (rowGroupKey r = some gk))).map
            (rowStockItem now)) :=
    fold_group_items now rbits1 gk rows1 ⟨[], []⟩
  have h2 : (lookupA (rows2.foldl (processItem now rbits2) ⟨[], []⟩).groups gk).map
        (fun g => g.stockItems)
      = groupItemsView none
          ((rows2.filter (fun r => decide (rowGroupKey r = some gk))).map
            (rowStockItem now)) :=
    fold_group_items now rbits2 gk rows2 ⟨[], []⟩
  have hdesc1 : lookupA (createProductGroups rows1 now rbits1).productGroups gk
      = (lookupA (rows1.foldl (processItem now rbits1) ⟨[], []⟩).groups gk).map
          (fun g => { g with
            seoDescription := createAdvancedSEODescription (rebuildInfo g) g.variants
            productDescription := createAdvancedProductDescription (rebuildInfo g)
              g.variants (rbits1 gk) }) :=
    lookupA_descMap rbits1 (rows1.foldl (processItem now rbits1) ⟨[], []⟩).groups gk
  have hdesc2 : lookupA (createProductGroups rows2 now rbits2).productGroups gk
      = (lookupA (rows2.foldl (processItem now rbits2) ⟨[], []⟩).groups gk).map
          (fun g => { g with
            seoDescription := createAdvancedSEODescription (rebuildInfo g) g.variants
            productDescription := createAdvancedProductDescription (rebuildInfo g)
              g.variants (rbits2 gk) }) :=
    lookupA_descMap rbits2 (rows2.foldl (processItem now rbits2) ⟨[], []⟩).groups gk
  constructor
  · rw [hdesc1, hdesc2, Option.isSome_map', Option.isSome_map',
        isSome_items (lookupA (rows1.foldl (processItem now rbits1) ⟨[], []⟩).groups gk),
        isSome_items (lookupA (rows2.foldl (processItem now rbits2) ⟨[], []⟩).groups gk),
        h1, h2, groupItemsView_none_isSome, groupItemsView_none_isSome,
        perm_isEmpty hits]
  · intro g1 g2 hl1 hl2
    rw [hdesc1] at hl1
    rw [hdesc2] at hl2
    rcases Option.map_eq_some'.mp hl1 with ⟨q1, hq1, hg1e⟩
    rcases Option.map_eq_some'.mp hl2 with ⟨q2, hq2, hg2e⟩
    have hs1 : q1.stockItems
        = (rows1.filter (fun r => decide (rowGroupKey r = some gk))).map
            (rowStockItem now) := by
      rw [hq1, Option.map_some'] at h1
      exact groupItemsView_none_eq _ _ h1.symm
    have hs2 : q2.stockItems
        = (rows2.filter (fun r => decide (rowGroupKey r = some gk))).map
            (rowStockItem now) := by
      rw [hq2, Option.map_some'] at h2
      exact groupItemsView_none_eq _ _ h2.symm
    have hinv1 : groupInv q1 :=
      (groupsInv_fold now rbits1 rows1 ⟨[], []⟩ (by intro kg hm; simp at hm))
        (gk, q1) (lookupA_mem _ _ _ hq1)
    have hinv2 : groupInv q2 :=
      (groupsInv_fold now rbits2 rows2 ⟨[], []⟩ (by intro kg hm; simp at hm))
        (gk, q2) (lookupA_mem _ _ _ hq2)
    have hvar1 : g1.variants = q1.variants := by rw [← hg1e]
    have hvar2 : g2.variants = q2.variants := by rw [← hg2e]
    have htu1 : g1.totalUnits = q1.totalUnits := by rw [← hg1e]
    have htu2 : g2.totalUnits = q2.totalUnits := by rw [← hg2e]
    have hst1 : g1.stockItems = q1.stockItems := by rw [← hg1e]
    have hst2 : g2.stockItems = q2.stockItems := by rw [← hg2e]
    refine ⟨?_, ?_, ?_⟩
    · rw [htu1, htu2, hinv1.2, hinv2.2, hs1, hs2, hits.length_eq]
    · rw [hst1, hst2, hs1, hs2]
      exact hits
    · intro vk
      have hitsB : ((rows1.filter (fun r => decide (rowGroupKey r = some gk)
            && decide (rowVariantKey now r = vk))).map (rowStockItem now)).Perm
          ((rows2.filter (fun r => decide (rowGroupKey r = some gk)
            && decide (rowVariantKey now r = vk))).map (rowStockItem now)) :=
        List.Perm.map _ (List.Perm.filter _ hperm)
      have hb1 : ((lookupA (rows1.foldl (processItem now rbits1) ⟨[], []⟩).groups gk).bind
            (fun g => lookupA g.variants vk)).map (fun b => (b.quantity, b.stockItems))
          = bucketView none
              ((rows1.filter (fun r => decide (rowGroupKey r = some gk)
                && decide (rowVariantKey now r = vk))).map (rowStockItem now)) :=
        fold_bucket now rbits1 gk vk rows1 ⟨[], []⟩
      have hb2 : ((lookupA (rows2.foldl (processItem now rbits2) ⟨[], []⟩).groups gk).bind
            (fun g => lookupA g.variants vk)).map (fun b => (b.quantity, b.stockItems))
          = bucketView none
              ((rows2.filter (fun r => decide (rowGroupKey r = some gk)
                && decide (rowVariantKey now r = vk))).map (rowStockItem now)) :=
        fold_bucket now rbits2 gk vk rows2 ⟨[], []⟩
      rw [hq1] at hb1
      rw [hq2] at hb2
      simp only [Option.some_bind] at hb1 hb2
      constructor
      · rw [hvar1, hvar2, isSome_bucket (lookupA q1.variants vk),
            isSome_bucket (lookupA q2.variants vk), hb1, hb2,
            bucketView_none_isSome, bucketView_none_isSome, perm_isEmpty hitsB]
      · intro b1 b2 hlb1 hlb2
        rw [hvar1] at hlb1
        rw [hvar2] at hlb2
        rw [hlb1, Option.map_some'] at hb1
        rw [hlb2, Option.map_some'] at hb2
        have e1 := bucketView_none_eq _ _ hb1.symm
        have e2 := bucketView_none_eq _ _ hb2.symm
        constructor
        · have e1q : b1.quantity
              = ((rows1.filter (fun r => decide (rowGroupKey r = some gk)
                && decide (rowVariantKey now r = vk))).map (rowStockItem now)).length :=
            congrArg Prod.fst e1
          have e2q : b2.quantity
              = ((rows2.filter (fun r => decide (rowGroupKey r = some gk)
                && decide (rowVariantKey now r = vk))).map (rowStockItem now)).length :=
            congrArg Prod.fst e2
          rw [e1q, e2q, hitsB.length_eq]
        · have e1s : b1.stockItems
              = (rows1.filter (fun r => decide (rowGroupKey r = some gk)
                && decide (rowVariantKey now r = vk))).map (rowStockItem now) :=
            congrArg Prod.snd e1
          have e2s : b2.stockItems
              = (rows2.filter (fun r => decide (rowGroupKey r = some gk)
                && decide (rowVariantKey now r = vk))).map (rowStockItem now) :=
            congrArg Prod.snd e2
          rw [e1s, e2s]
          exact hitsB

/-- The group key of the sample rows. -/
def sampleKey : Str := str "MacBookPro_13_M2_512GB_16GB_2022"

/-- Witness for C7: the two orders of the same two rows agree on whether
the sample group key is present. -/
theorem claim_C7_witness :
    (lookupA (createProductGroups [sampleRowA, sampleRowB] sampleNow
        (fun _ => [])).productGroups sampleKey).isSome
      = (lookupA (createProductGroups [sampleRowB, sampleRowA] sampleNow
        (fun _ => [])).productGroups sampleKey).isSome :=
  (claim_C7 [sampleRowA, sampleRowB] [sampleRowB, sampleRowA] sampleNow
    (fun _ => []) (fun _ => []) (by decide) sampleKey).1

/-! ## Claim C4: one remote variant per observed combination -/

/-- The aggregation key of one stock item, as `createAdvancedVariants`
computes it. -/
def comboOf (si : StockItem) : Str :=
  aggKeyOf si.color si.condition si.keyboardLayout

/-- The group over three rows of one model where the third lacks both stock
id and serial number. -/
def sampleGroupNS : ProductGroup :=
  (((createProductGroups [sampleRowA, sampleRowB, sampleRowNoSerial] sampleNow
      (fun _ => [])).productGroups.map Prod.snd).headD (initGroup emptyInfo [] []))

/-- C4 counterexample: the group holds three variant buckets (three distinct
color/condition/keyboard combinations observed among its stock items), but
`createAdvancedVariants` emits only two remote variants — the unit without a
stock id and serial number is silently dropped by the filter, so its bucket
gets no variant. -/
theorem claim_C4_counterexample :
    sampleGroupNS.variants.length = 3 ∧
    (createAdvancedVariants sampleGroupNS).length = 2 := by
  constructor
  · decide
  · decide

theorem mergeBy_perm {α : Type} (le : α → α → Bool) :
    ∀ (fuel : Nat) (xs ys : List α), (mergeBy le fuel xs ys).Perm (xs ++ ys) := by
  intro fuel
  induction fuel with
  | zero => intro xs ys; exact List.Perm.refl _
  | succ n ih =>
    intro xs ys
    cases xs with
    | nil =>
      show ys.Perm ([] ++ ys)
      rw [List.nil_append]
    | cons x xt =>
      cases ys with
      | nil =>
        show (x :: xt).Perm ((x :: xt) ++ [])
        rw [List.append_nil]
      | cons y yt =>
        show (if le x y then x :: mergeBy le n xt (y :: yt)
          else y :: mergeBy le n (x :: xt) yt).Perm ((x :: xt) ++ (y :: yt))
        by_cases hle : le x y = true
        · rw [if_pos hle, List.cons_append]
          exact (ih xt (y :: yt)).cons x
        · rw [if_neg hle]
          exact List.Perm.trans ((ih (x :: xt) yt).cons y) List.perm_middle.symm

theorem sortBy_perm {α : Type} (le : α → α → Bool) :
    ∀ (fuel : Nat) (l : List α), (sortBy le fuel l).Perm l := by
  intro fuel
  induction fuel with
  | zero => intro l; exact List.Perm.refl _
  | succ n ih =>
    intro l
    match l with
    | [] => exact List.Perm.refl _
    | [x] => exact List.Perm.refl _
    | a :: b :: t =>
      show (mergeBy le (a :: b :: t).length
        (sortBy le n ((a :: b :: t).take ((a :: b :: t).length / 2)))
        (sortBy le n ((a :: b :: t).drop ((a :: b :: t).length / 2)))).Perm (a :: b :: t)
      refine List.Perm.trans (mergeBy_perm le _ _ _) ?_
      refine List.Perm.trans (List.Perm.append (ih _) (ih _)) ?_
      rw [List.take_append_drop]

theorem sortBy_isEmpty_false {α : Type} (le : α → α → Bool) (fuel : Nat) (l : List α)
    (h : l ≠ []) : (sortBy le fuel l).isEmpty = false := by
  cases hc : sortBy le fuel l with
  | cons a t => rfl
  | nil =>
    have hl := (sortBy_perm le fuel l).length_eq
    rw [hc] at hl
    cases l with
    | nil => exact absurd rfl h
    | cons b t2 => simp at hl

theorem nodup_snoc {α : Type} (l : List α) (x : α) (hnd : l.Nodup) (hx : x ∉ l) :
    (l ++ [x]).Nodup := by
  induction l with
  | nil => simp
  | cons a t ih =>
    rw [List.cons_append, List.nodup_cons]
    rcases List.nodup_cons.mp hnd with ⟨ha, ht⟩
    refine ⟨?_, ih ht (fun hxt => hx (List.mem_cons_of_mem _ hxt))⟩
    intro hmem
    rcases List.mem_append.mp hmem with hmem | hmem
    · exact ha hmem
    · have hax : a = x := List.mem_singleton.mp hmem
      rw [← hax] at hx
      exact hx (List.mem_cons_self _ _)

theorem lookupA_eq_of_mem_nodup {α : Type} :
    ∀ (m : List (Str × α)), (m.map Prod.fst).Nodup →
      ∀ kv : Str × α, kv ∈ m → lookupA m kv.1 = some kv.2 := by
  intro m
  induction m with
  | nil => intro _ kv h; simp at h
  | cons p t ih =>
    intro hnd kv hm
    rw [List.map_cons] at hnd
    rcases List.mem_cons.mp hm with he | hm2
    · rw [he, lookupA_cons, if_pos rfl]
    · by_cases hp : p.1 = kv.1
      · exfalso
        have hin : kv.1 ∈ t.map Prod.fst := List.mem_map.mpr ⟨kv, hm2, rfl⟩
        rw [← hp] at hin
        exact (List.nodup_cons.mp hnd).1 hin
      · rw [lookupA_cons, if_neg hp]
        exact ih (List.nodup_cons.mp hnd).2 kv hm2

theorem updFirst_map_fst {α : Type} (k : Str) (f : α → α) :
    ∀ m : List (Str × α), (updFirst k f m).map Prod.fst = m.map Prod.fst := by
  intro m
  induction m with
  | nil => rfl
  | cons p t ih =>
    rw [updFirst_cons]
    by_cases hp : p.1 = k
    · rw [if_pos hp]
      rfl
    · rw [if_neg hp, List.map_cons, List.map_cons, ih]

theorem hasKeyA_eq_keys {α : Type} (m : List (Str × α)) (k : Str) :
    hasKeyA m k = (m.map Prod.fst).any (fun s => s == k) := by
  induction m with
  | nil => rfl
  | cons p t ih =>
    rw [hasKeyA_cons, List.map_cons, List.any_cons, ih]
    congr 1
    by_cases h : p.1 = k <;> simp [h]

theorem hasKeyA_updFirst {α : Type} (m : List (Str × α)) (k k2 : Str) (f : α → α) :
    hasKeyA (updFirst k2 f m) k = hasKeyA m k := by
  rw [hasKeyA_eq_keys, updFirst_map_fst, ← hasKeyA_eq_keys]

theorem hasKeyA_append {α : Type} (m m2 : List (Str × α)) (k : Str) :
    hasKeyA (m ++ m2) k = (hasKeyA m k || hasKeyA m2 k) := by
  unfold hasKeyA
  rw [List.any_append]

theorem drop6_grade (d : Str) : (str "Grade " ++ d).drop 6 = d := by
  have h6 : (str "Grade ").length = 6 := rfl
  rw [← h6, List.drop_left]

theorem barSplit :
    ∀ (a b x y : Str), '|' ∉ a → '|' ∉ b → a ++ '|' :: x = b ++ '|' :: y →
      a = b ∧ x = y := by
  intro a
  induction a with
  | nil =>
    intro b x y _ hb h
    cases b with
    | nil =>
      rw [List.nil_append, List.nil_append] at h
      injection h with _ ht
      exact ⟨rfl, ht⟩
    | cons c bt =>
      rw [List.nil_append, List.cons_append] at h
      injection h with hc _
      have hmem : '|' ∈ c :: bt := by rw [← hc]; exact List.mem_cons_self _ _
      exact absurd hmem hb
  | cons c at2 ih =>
    intro b x y ha hb h
    cases b with
    | nil =>
      rw [List.nil_append, List.cons_append] at h
      injection h with hc _
      have hmem : '|' ∈ c :: at2 := by rw [hc]; exact List.mem_cons_self _ _
      exact absurd hmem ha
    | cons d bt =>
      rw [List.cons_append, List.cons_append] at h
      injection h with hc ht
      have hat : '|' ∉ at2 := fun hm => ha (List.mem_cons_of_mem _ hm)
      have hbt : '|' ∉ bt := fun hm => hb (List.mem_cons_of_mem _ hm)
      obtain ⟨he1, he2⟩ := ih bt x y hat hbt ht
      exact ⟨by rw [hc, he1], he2⟩

theorem aggKeyOf_inj (c1 d1 k1 c2 d2 k2 : Str)
    (hc1 : '|' ∉ c1) (hd1 : '|' ∉ d1) (hc2 : '|' ∉ c2) (hd2 : '|' ∉ d2)
    (h : aggKeyOf c1 d1 k1 = aggKeyOf c2 d2 k2) :
    c1 = c2 ∧ d1 = d2 ∧ k1 = k2 := by
  unfold aggKeyOf at h
  rw [List.append_assoc, List.append_assoc, List.cons_append, List.cons_append] at h
  obtain ⟨he1, he2⟩ := barSplit c1 c2 _ _ hc1 hc2 h
  obtain ⟨he3, he4⟩ := barSplit d1 d2 _ _ hd1 hd2 he2
  exact ⟨he1, he3, he4⟩

/-- Invariant of the stock-item aggregation loop of `createAdvancedVariants`
after processing the (sellable) items `done`: keys are distinct, every
processed item has its aggregation key present, and each record's key,
source fields and unit count are faithful. -/
def AggInv (done : List StockItem) (m : List (Str × AggVariant)) : Prop :=
  (m.map Prod.fst).Nodup ∧
  (∀ si ∈ done, hasKeyA m (comboOf si) = true) ∧
  (∀ k v, lookupA m k = some v →
    k = aggKeyOf v.color v.condition v.keyboardLayout ∧
    (∃ si ∈ done, si.color = v.color ∧ si.condition = v.condition ∧
      si.keyboardLayout = v.keyboardLayout) ∧
    v.inventory_quantity = (done.filter (fun x => comboOf x == k)).length)

theorem aggStep_sellable (m : List (Str × AggVariant)) (si : StockItem)
    (h1 : si.stockId.isEmpty = false) (h2 : si.serialNumber.isEmpty = false) :
    aggStep m si =
      updFirst (comboOf si) (fun v => { v with
        inventory_quantity := v.inventory_quantity + 1
        stockItems := v.stockItems ++ [si]
        skus := v.skus ++ [si.stockId]
        barcodes := v.barcodes ++ [si.serialNumber] })
        (if hasKeyA m (comboOf si) then m
         else m ++ [(comboOf si,
           { color := si.color
             condition := si.condition
             keyboardLayout := si.keyboardLayout
             inventory_quantity := 0
             stockItems := []
             skus := []
             barcodes := [] })]) := by
  unfold aggStep
  rw [if_neg (by simp [h1, h2] :
    ¬((si.stockId.isEmpty || si.serialNumber.isEmpty) = true))]
  rfl

theorem aggInv_step (done : List StockItem) (m : List (Str × AggVariant))
    (si : StockItem) (h1 : si.stockId.isEmpty = false)
    (h2 : si.serialNumber.isEmpty = false) (h : AggInv done m) :
    AggInv (done ++ [si]) (aggStep m si) := by
  obtain ⟨hA, hB, hC⟩ := h
  rw [aggStep_sellable m si h1 h2]
  by_cases hk : hasKeyA m (comboOf si) = true
  · rw [if_pos hk]
    refine ⟨?_, ?_, ?_⟩
    · rw [updFirst_map_fst]; exact hA
    · intro x hx
      rw [hasKeyA_updFirst]
      rcases List.mem_append.mp hx with hx | hx
      · exact hB x hx
      · rw [List.mem_singleton.mp hx]; exact hk
    · intro k v hlv
      by_cases hkk : comboOf si = k
      · subst hkk
        rw [lookupA_updFirst] at hlv
        rcases Option.map_eq_some'.mp hlv with ⟨v0, hv0, hbump⟩
        obtain ⟨hkey0, hwit0, hcnt0⟩ := hC (comboOf si) v0 hv0
        refine ⟨?_, ?_, ?_⟩
        · rw [← hbump]; exact hkey0
        · rcases hwit0 with ⟨si0, hsi0, hf⟩
          exact ⟨si0, List.mem_append_left _ hsi0, by rw [← hbump]; exact hf.1,
            by rw [← hbump]; exact hf.2.1, by rw [← hbump]; exact hf.2.2⟩
        · rw [← hbump]
          show v0.inventory_quantity + 1 = _
          rw [hcnt0, List.filter_append, List.length_append]
          simp
      · rw [lookupA_updFirst_ne _ _ _ _ hkk] at hlv
        obtain ⟨hkey0, hwit0, hcnt0⟩ := hC k v hlv
        refine ⟨hkey0, ?_, ?_⟩
        · rcases hwit0 with ⟨si0, hsi0, hf⟩
          exact ⟨si0, List.mem_append_left _ hsi0, hf⟩
        · rw [hcnt0, List.filter_append, List.length_append]
          simp [hkk]
  · rw [if_neg hk]
    have hknone : lookupA m (comboOf si) = none := by
      cases hlk : lookupA m (comboOf si) with
      | none => rfl
      | some v => exact absurd ((hasKeyA_iff_lookupA _ _).mpr (by rw [hlk]; rfl)) hk
    have hnotin : comboOf si ∉ m.map Prod.fst := by
      intro hin
      exact hk (by
        rw [hasKeyA_eq_keys]
        exact List.any_eq_true.mpr ⟨comboOf si, hin, by simp⟩)
    have hdone0 : ∀ x ∈ done, (comboOf x == comboOf si) = false := by
      intro x hx
      by_cases hcx : comboOf x = comboOf si
      · exact absurd (by rw [← hcx]; exact hB x hx) hk
      · simp [hcx]
    refine ⟨?_, ?_, ?_⟩
    · rw [updFirst_map_fst, List.map_append, List.map_cons, List.map_nil]
      exact nodup_snoc _ _ hA hnotin
    · intro x hx
      rw [hasKeyA_updFirst, hasKeyA_append]
      rcases List.mem_append.mp hx with hx | hx
      · rw [hB x hx, Bool.true_or]
      · rw [List.mem_singleton.mp hx, hasKeyA_cons]
        simp
    · intro k v hlv
      by_cases hkk : comboOf si = k
      · subst hkk
        rw [lookupA_updFirst, lookupA_append_self _ _ _ hknone, Option.map_some'] at hlv
        obtain rfl := Option.some_inj.mp hlv
        refine ⟨rfl, ⟨si, List.mem_append_right _ (List.mem_singleton.mpr rfl),
          rfl, rfl, rfl⟩, ?_⟩
        show 0 + 1 = _
        rw [List.filter_append]
        have hdnil : done.filter (fun x => comboOf x == comboOf si) = [] :=
          List.filter_eq_nil_iff.mpr (fun x hx => by rw [hdone0 x hx]; simp)
        rw [hdnil, List.nil_append]
        simp
      · rw [lookupA_updFirst_ne _ _ _ _ hkk,
            lookupA_append_ne _ _ _ _ hkk] at hlv
        obtain ⟨hkey0, hwit0, hcnt0⟩ := hC k v hlv
        refine ⟨hkey0, ?_, ?_⟩
        · rcases hwit0 with ⟨si0, hsi0, hf⟩
          exact ⟨si0, List.mem_append_left _ hsi0, hf⟩
        · rw [hcnt0, List.filter_append, List.length_append]
          simp [hkk]

theorem aggInv_nil : AggInv [] [] := by
  refine ⟨by simp, by simp, ?_⟩
  intro k v hlv
  rw [lookupA_nil] at hlv
  exact Option.noConfusion hlv

theorem aggInv_fold :
    ∀ (todo done : List StockItem) (m : List (Str × AggVariant)),
      (∀ si ∈ todo, si.stockId.isEmpty = false ∧ si.serialNumber.isEmpty = false) →
      AggInv done m → AggInv (done ++ todo) (todo.foldl aggStep m) := by
  intro todo
  induction todo with
  | nil => intro done m _ h; rw [List.foldl_nil, List.append_nil]; exact h
  | cons si t ih =>
    intro done m hsell h
    rw [List.foldl_cons]
    have hstep := aggInv_step done m si (hsell si (List.mem_cons_self _ _)).1
      (hsell si (List.mem_cons_self _ _)).2 h
    have h2 := ih (done ++ [si]) (aggStep m si)
      (fun x hx => hsell x (List.mem_cons_of_mem _ hx)) hstep
    rw [List.append_assoc] at h2
    simpa using h2

/-- C4 (amended): when every stock item of the group carries a stock id and
a serial number (the filter drops the others, as the counterexample shows)
and colors and conditions are free of the `|` key separator, the create
payload has exactly one remote variant per distinct
color/condition/keyboard combination observed among the stock items —
every item's combination is represented, the variants' option triples are
pairwise distinct, every variant comes from an observed combination — and
each variant's `inventory_quantity` is the number of member units of its
combination, not one per unit. -/
theorem claim_C4_amended (g : ProductGroup)
    (hbar : ∀ si ∈ g.stockItems, '|' ∉ si.color ∧ '|' ∉ si.condition)
    (hsell : ∀ si ∈ g.stockItems,
      si.stockId.isEmpty = false ∧ si.serialNumber.isEmpty = false)
    (hne : g.stockItems ≠ []) :
    (∀ si ∈ g.stockItems, ∃ v ∈ createAdvancedVariants g,
      v.option1 = si.color ∧ v.option2 = str "Grade " ++ si.condition ∧
      v.option3 = si.keyboardLayout ∧
      v.inventory_quantity
        = (g.stockItems.filter (fun x => comboOf x == comboOf si)).length) ∧
    ((createAdvancedVariants g).map
      (fun v => (v.option1, v.option2, v.option3))).Nodup ∧
    (∀ v ∈ createAdvancedVariants g, ∃ si ∈ g.stockItems,
      v.option1 = si.color ∧ v.option2 = str "Grade " ++ si.condition ∧
      v.option3 = si.keyboardLayout) := by
  have hInv : AggInv g.stockItems (g.stockItems.foldl aggStep []) := by
    have h0 := aggInv_fold g.stockItems [] [] hsell aggInv_nil
    simpa using h0
  have hMne : g.stockItems.foldl aggStep [] ≠ [] := by
    intro hM0
    cases hstock : g.stockItems with
    | nil => exact hne hstock
    | cons si rest =>
      have hkey := hInv.2.1 si (by rw [hstock]; exact List.mem_cons_self _ _)
      rw [hM0] at hkey
      exact absurd hkey (by simp [hasKeyA_nil])
  have hvne : (g.stockItems.foldl aggStep []).map
      (fun kv => aggToShopify g kv.2) ≠ [] := by
    intro h0
    cases hM : g.stockItems.foldl aggStep [] with
    | nil => exact hMne hM
    | cons kv rest =>
      rw [hM, List.map_cons] at h0
      exact List.noConfusion h0
  have hse := sortBy_isEmpty_false variantLe
    ((g.stockItems.foldl aggStep []).map (fun kv => aggToShopify g kv.2)).length
    ((g.stockItems.foldl aggStep []).map (fun kv => aggToShopify g kv.2)) hvne
  have hcv : createAdvancedVariants g
      = sortBy variantLe ((g.stockItems.foldl aggStep []).map
          (fun kv => aggToShopify g kv.2)).length
        ((g.stockItems.foldl aggStep []).map (fun kv => aggToShopify g kv.2)) := by
    show (if (sortBy variantLe ((g.stockItems.foldl aggStep []).map
            (fun kv => aggToShopify g kv.2)).length
          ((g.stockItems.foldl aggStep []).map (fun kv => aggToShopify g kv.2))).isEmpty
        then [defaultVariant g]
        else sortBy variantLe ((g.stockItems.foldl aggStep []).map
            (fun kv => aggToShopify g kv.2)).length
          ((g.stockItems.foldl aggStep []).map (fun kv => aggToShopify g kv.2))) = _
    rw [if_neg (by rw [hse]; exact Bool.false_ne_true)]
  refine ⟨?_, ?_, ?_⟩
  · intro si hsi
    have hkey := hInv.2.1 si hsi
    rcases Option.isSome_iff_exists.mp ((hasKeyA_iff_lookupA _ _).mp hkey) with ⟨v, hv⟩
    obtain ⟨hkeyeq, hwit, hcnt⟩ := hInv.2.2 (comboOf si) v hv
    rcases hwit with ⟨si0, hsi0, hf⟩
    have haggeq : aggKeyOf si.color si.condition si.keyboardLayout
        = aggKeyOf si0.color si0.condition si0.keyboardLayout := by
      rw [hf.1, hf.2.1, hf.2.2]
      exact hkeyeq
    obtain ⟨e1, e2, e3⟩ := aggKeyOf_inj _ _ _ _ _ _
      (hbar si hsi).1 (hbar si hsi).2 (hbar si0 hsi0).1 (hbar si0 hsi0).2 haggeq
    refine ⟨aggToShopify g v, ?_, ?_, ?_, ?_, ?_⟩
    · rw [hcv]
      exact (sortBy_perm variantLe _ _).mem_iff.mpr
        (List.mem_map.mpr ⟨(comboOf si, v), lookupA_mem _ _ _ hv, rfl⟩)
    · show v.color = si.color
      rw [← hf.1, ← e1]
    · show str "Grade " ++ v.condition = str "Grade " ++ si.condition
      rw [← hf.2.1, ← e2]
    · show v.keyboardLayout = si.keyboardLayout
      rw [← hf.2.2, ← e3]
    · exact hcnt
  · rw [hcv]
    refine ((sortBy_perm variantLe _ _).map _).nodup_iff.mpr ?_
    have htmap : (((g.stockItems.foldl aggStep []).map
        (fun kv => aggToShopify g kv.2)).map
          (fun v => (v.option1, v.option2, v.option3)))
        = (g.stockItems.foldl aggStep []).map
            (fun kv => (kv.2.color, str "Grade " ++ kv.2.condition,
              kv.2.keyboardLayout)) := by
      rw [List.map_map]
      rfl
    rw [htmap]
    apply List.Nodup.of_map
      (fun tr : Str × Str × Str => aggKeyOf tr.1 (tr.2.1.drop 6) tr.2.2)
    have hkeymap : ((g.stockItems.foldl aggStep []).map
        (fun kv => (kv.2.color, str "Grade " ++ kv.2.condition,
          kv.2.keyboardLayout))).map
          (fun tr : Str × Str × Str => aggKeyOf tr.1 (tr.2.1.drop 6) tr.2.2)
        = (g.stockItems.foldl aggStep []).map Prod.fst := by
      rw [List.map_map]
      apply List.map_congr_left
      intro kv hkv
      show aggKeyOf kv.2.color ((str "Grade " ++ kv.2.condition).drop 6)
        kv.2.keyboardLayout = kv.1
      rw [drop6_grade]
      exact ((hInv.2.2 kv.1 kv.2 (lookupA_eq_of_mem_nodup _ hInv.1 kv hkv)).1).symm
    rw [hkeymap]
    exact hInv.1
  · intro v' hv'
    rw [hcv] at hv'
    have hvmem := (sortBy_perm variantLe _ _).mem_iff.mp hv'
    rcases List.mem_map.mp hvmem with ⟨kv, hkv, hve⟩
    obtain ⟨hkeyeq, hwit, hcnt2⟩ := hInv.2.2 kv.1 kv.2
      (lookupA_eq_of_mem_nodup _ hInv.1 kv hkv)
    rcases hwit with ⟨si0, hsi0, hf⟩
    refine ⟨si0, hsi0, ?_, ?_, ?_⟩
    · rw [← hve]
      show kv.2.color = si0.color
      rw [hf.1]
    · rw [← hve]
      show str "Grade " ++ kv.2.condition = str "Grade " ++ si0.condition
      rw [hf.2.1]
    · rw [← hve]
      show kv.2.keyboardLayout = si0.keyboardLayout
      rw [hf.2.2]

/-- Witness for C4 (amended) on the concrete two-row group: the variant
option triples come out pairwise distinct. -/
theorem claim_C4_witness :
    ((createAdvancedVariants sampleGroup).map
      (fun v => (v.option1, v.option2, v.option3))).Nodup :=
  (claim_C4_amended sampleGroup (by decide) (by decide) (by decide)).2.1
